import Mathlib

/-!
Shallow embedding of the strike-solana-wallet configuration aggregate
(src/model/wallet.rs, src/model/balance_account.rs) together with the
slot-store and slot-flag helpers it relies on.  Rust mutators that take
a mutable receiver are embedded in state-passing style: each returns the
(possibly partially updated) wallet together with the operation result,
so that the partial-update behaviour of the source on early error is
preserved faithfully.
-/

namespace StrikeWallet

/-- Error type covering the error values produced by the embedded code
paths: `ProgramError::InvalidArgument`, `ProgramError::InvalidAccountData`
and the `WalletError` variants that reach them. -/
inductive ProgErr where
  | invalidArgument
  | invalidAccountData
  | invalidSignature
  | invalidApprovalTimeout
  | concurrentOperationsNotAllowed
  | balanceAccountNotFound
  deriving DecidableEq, Repr

/-- Modelled from the spec: `BooleanSetting` (declared in the missing
src/model/multisig_op.rs) is a two-valued toggle; `from_u8` reads zero as
`Off` and any non-zero byte as `On`, and `to_u8` writes `Off` as 0 and
`On` as 1 (spec section 6: packed boolean settings bits). -/
inductive BooleanSetting where
  | Off
  | On
  deriving DecidableEq, Repr

instance {ε α : Type} [DecidableEq ε] [DecidableEq α] :
    DecidableEq (Except ε α) := fun x y =>
  match x, y with
  | .ok a, .ok b =>
    match decEq a b with
    | isTrue h => isTrue (h ▸ rfl)
    | isFalse h => isFalse fun hh => h (by injection hh)
  | .ok _, .error _ => isFalse fun h => Except.noConfusion h
  | .error _, .ok _ => isFalse fun h => Except.noConfusion h
  | .error a, .error b =>
    match decEq a b with
    | isTrue h => isTrue (h ▸ rfl)
    | isFalse h => isFalse fun hh => h (by injection hh)

def BooleanSetting.from_u8 (n : Nat) : BooleanSetting :=
  if n = 0 then .Off else .On

def BooleanSetting.to_u8 : BooleanSetting → Nat
  | .Off => 0
  | .On => 1

/-- Modelled from the spec: a `Signer` (declared in the missing
src/model/signer.rs) is a public-key identity; the 32-byte key is
represented by a natural number below 2 ^ 256. -/
structure Signer where
  key : Nat
  deriving DecidableEq, Repr

/-- Modelled from the spec: an `AddressBookEntry` (declared in the missing
src/model/address_book.rs) is a destination identity consisting of an
address and a name hash, each a 32-byte value. -/
structure AddressBookEntry where
  address : Nat
  name_hash : Nat
  deriving DecidableEq, Repr

/-! Slot Store operations.  Modelled from the spec (section 4.1), since
src/utils.rs is not part of the provided sources: a store is a list of
optional entries; batch operations pre-validate every slot of the batch
against the current store. -/

def slotGet (store : List (Option α)) (id : Nat) : Option α :=
  store.getD id none

def can_be_inserted [DecidableEq α] (store : List (Option α))
    (batch : List (Nat × α)) : Bool :=
  batch.all fun p => (slotGet store p.1).isNone

def insert_many (store : List (Option α)) (batch : List (Nat × α)) :
    List (Option α) :=
  batch.foldl (fun s p => s.set p.1 (some p.2)) store

def can_be_removed [DecidableEq α] (store : List (Option α))
    (batch : List (Nat × α)) : Bool :=
  batch.all fun p => slotGet store p.1 == some p.2

def remove_many (store : List (Option α)) (batch : List (Nat × α)) :
    List (Option α) :=
  batch.foldl (fun s p => s.set p.1 none) store

def containsAll [DecidableEq α] (store : List (Option α))
    (batch : List (Nat × α)) : Bool :=
  batch.all fun p => slotGet store p.1 == some p.2

def slotIds (batch : List (Nat × α)) : List Nat :=
  batch.map Prod.fst

/-! Slot Flag Set operations.  Modelled from the spec (section 4.2): a
flag set is a bit per slot; enabling is unconditional, disabling is
unconditional, counting and any-over-ids drive the threshold and removal
guards. -/

def is_enabled (flags : List Bool) (id : Nat) : Bool :=
  flags.getD id false

def any_enabled (flags : List Bool) (ids : List Nat) : Bool :=
  ids.any fun i => flags.getD i false

def enable_many (flags : List Bool) (ids : List Nat) : List Bool :=
  ids.foldl (fun f i => f.set i true) flags

def disable (flags : List Bool) (id : Nat) : List Bool :=
  flags.set id false

def count_enabled (flags : List Bool) : Nat :=
  flags.count true

def iter_enabled (flags : List Bool) : List Nat :=
  (List.range flags.length).filter fun i => flags.getD i false

/-- BalanceAccount record (src/model/balance_account.rs).  The 32-byte
guid and name hashes are naturals below 2 ^ 256; the timeout is the
`Duration::as_secs` value; the two flag sets are bit lists over the
signer slots (24 bits) and the address-book slots (128 bits). -/
structure BalanceAccount where
  guid_hash : Nat
  name_hash : Nat
  approvals_required_for_transfer : Nat
  approval_timeout_for_transfer : Nat
  transfer_approvers : List Bool
  allowed_destinations : List Bool
  whitelist_enabled : BooleanSetting
  dapps_enabled : BooleanSetting
  policy_update_locked : Bool
  deriving DecidableEq, Repr

instance : Inhabited BalanceAccount :=
  ⟨{ guid_hash := 0, name_hash := 0, approvals_required_for_transfer := 0,
     approval_timeout_for_transfer := 0,
     transfer_approvers := List.replicate 24 false,
     allowed_destinations := List.replicate 128 false,
     whitelist_enabled := .Off, dapps_enabled := .Off,
     policy_update_locked := false }⟩

/-- Wallet aggregate root (src/model/wallet.rs). -/
structure Wallet where
  is_initialized : Bool
  signers : List (Option Signer)
  assistant : Signer
  address_book : List (Option AddressBookEntry)
  approvals_required_for_config : Nat
  approval_timeout_for_config : Nat
  config_approvers : List Bool
  balance_accounts : List BalanceAccount
  config_policy_update_locked : Bool
  deriving DecidableEq, Repr

def MAX_BALANCE_ACCOUNTS : Nat := 10
def MAX_SIGNERS : Nat := 24
def MAX_ADDRESS_BOOK_ENTRIES : Nat := 128
def MIN_APPROVAL_TIMEOUT : Nat := 60
def MAX_APPROVAL_TIMEOUT : Nat := 60 * 60 * 24 * 365

/-- Wallet update argument (declared in the missing src/instruction.rs;
field set taken from its uses in src/model/wallet.rs `Wallet::update`). -/
structure WalletUpdate where
  approvals_required_for_config : Nat
  approval_timeout_for_config : Nat
  add_signers : List (Nat × Signer)
  remove_signers : List (Nat × Signer)
  add_config_approvers : List (Nat × Signer)
  remove_config_approvers : List (Nat × Signer)
  add_address_book_entries : List (Nat × AddressBookEntry)
  remove_address_book_entries : List (Nat × AddressBookEntry)
  deriving DecidableEq, Repr

/-- Config policy update argument (declared in the missing
src/instruction.rs; field set taken from `Wallet::update_config_policy`). -/
structure WalletConfigPolicyUpdate where
  approvals_required_for_config : Nat
  approval_timeout_for_config : Nat
  add_config_approvers : List (Nat × Signer)
  remove_config_approvers : List (Nat × Signer)
  deriving DecidableEq, Repr

/-- Balance account update argument (declared in the missing
src/instruction.rs; field set taken from `Wallet::update_balance_account`). -/
structure BalanceAccountUpdate where
  name_hash : Nat
  approvals_required_for_transfer : Nat
  approval_timeout_for_transfer : Nat
  add_transfer_approvers : List (Nat × Signer)
  remove_transfer_approvers : List (Nat × Signer)
  add_allowed_destinations : List (Nat × AddressBookEntry)
  remove_allowed_destinations : List (Nat × AddressBookEntry)
  deriving DecidableEq, Repr

/-- Wallet::validate_approval_timeout (wallet.rs lines 109-128). -/
def Wallet.validate_approval_timeout (t : Nat) : Except ProgErr Unit :=
  if t < MIN_APPROVAL_TIMEOUT then .error .invalidApprovalTimeout
  else if MAX_APPROVAL_TIMEOUT < t then .error .invalidApprovalTimeout
  else .ok ()

/-- Disable loop shared by `disable_config_approvers`,
`disable_transfer_approvers` and `disable_transfer_destinations`
(wallet.rs lines 445-458, 475-491, 508-525): each id is disabled when the
underlying slot holds the matching value or is already vacant; a
mismatching slot aborts the loop with an error, keeping the bits already
cleared. -/
def disableLoopS [DecidableEq α] (store : List (Option α))
    (flags : List Bool) :
    List (Nat × α) → List Bool × Except ProgErr Unit
  | [] => (flags, .ok ())
  | (id, v) :: rest =>
    if slotGet store id = some v ∨ slotGet store id = none then
      disableLoopS store (disable flags id) rest
    else (flags, .error .invalidArgument)

/-- State-error step combinator mirroring the Rust `?` operator on a
mutable receiver: on error the partially updated state is kept. -/
def step (x : Wallet × Except ProgErr Unit)
    (f : Wallet → Wallet × Except ProgErr Unit) :
    Wallet × Except ProgErr Unit :=
  match x with
  | (w, .ok _) => f w
  | (w, .error e) => (w, .error e)

/-- Wallet::add_signers (wallet.rs lines 369-376). -/
def Wallet.add_signersS (w : Wallet) (l : List (Nat × Signer)) :
    Wallet × Except ProgErr Unit :=
  if can_be_inserted w.signers l then
    ({ w with signers := insert_many w.signers l }, .ok ())
  else (w, .error .invalidArgument)

/-- Wallet::remove_signers (wallet.rs lines 378-400). -/
def Wallet.remove_signersS (w : Wallet) (l : List (Nat × Signer)) :
    Wallet × Except ProgErr Unit :=
  if ¬ can_be_removed w.signers l then (w, .error .invalidArgument)
  else if any_enabled w.config_approvers (slotIds l) then
    (w, .error .invalidArgument)
  else if w.balance_accounts.any
      (fun a => any_enabled a.transfer_approvers (slotIds l)) then
    (w, .error .invalidArgument)
  else ({ w with signers := remove_many w.signers l }, .ok ())

/-- Wallet::add_address_book_entries (wallet.rs lines 402-412). -/
def Wallet.add_address_book_entriesS (w : Wallet)
    (l : List (Nat × AddressBookEntry)) : Wallet × Except ProgErr Unit :=
  if can_be_inserted w.address_book l then
    ({ w with address_book := insert_many w.address_book l }, .ok ())
  else (w, .error .invalidArgument)

/-- Wallet::remove_address_book_entries (wallet.rs lines 414-431). -/
def Wallet.remove_address_book_entriesS (w : Wallet)
    (l : List (Nat × AddressBookEntry)) : Wallet × Except ProgErr Unit :=
  if ¬ can_be_removed w.address_book l then (w, .error .invalidArgument)
  else if w.balance_accounts.any
      (fun a => any_enabled a.allowed_destinations (slotIds l)) then
    (w, .error .invalidArgument)
  else ({ w with address_book := remove_many w.address_book l }, .ok ())

/-- Wallet::enable_config_approvers (wallet.rs lines 433-443). -/
def Wallet.enable_config_approversS (w : Wallet)
    (l : List (Nat × Signer)) : Wallet × Except ProgErr Unit :=
  if containsAll w.signers l then
    ({ w with config_approvers := enable_many w.config_approvers (slotIds l) },
     .ok ())
  else (w, .error .invalidArgument)

/-- Wallet::disable_config_approvers (wallet.rs lines 445-458). -/
def Wallet.disable_config_approversS (w : Wallet)
    (l : List (Nat × Signer)) : Wallet × Except ProgErr Unit :=
  let fr := disableLoopS w.signers w.config_approvers l
  ({ w with config_approvers := fr.1 }, fr.2)

def modifyAccount (w : Wallet) (i : Nat)
    (f : BalanceAccount → BalanceAccount) : Wallet :=
  { w with balance_accounts :=
      w.balance_accounts.set i (f (w.balance_accounts.getD i default)) }

/-- Wallet::enable_transfer_approvers (wallet.rs lines 460-473). -/
def Wallet.enable_transfer_approversS (w : Wallet) (i : Nat)
    (l : List (Nat × Signer)) : Wallet × Except ProgErr Unit :=
  if containsAll w.signers l then
    (modifyAccount w i (fun a =>
       { a with transfer_approvers :=
           enable_many a.transfer_approvers (slotIds l) }), .ok ())
  else (w, .error .invalidArgument)

/-- Wallet::disable_transfer_approvers (wallet.rs lines 475-491). -/
def Wallet.disable_transfer_approversS (w : Wallet) (i : Nat)
    (l : List (Nat × Signer)) : Wallet × Except ProgErr Unit :=
  let fr := disableLoopS w.signers
    (w.balance_accounts.getD i default).transfer_approvers l
  (modifyAccount w i (fun a => { a with transfer_approvers := fr.1 }), fr.2)

/-- Wallet::enable_transfer_destinations (wallet.rs lines 493-506). -/
def Wallet.enable_transfer_destinationsS (w : Wallet) (i : Nat)
    (l : List (Nat × AddressBookEntry)) : Wallet × Except ProgErr Unit :=
  if containsAll w.address_book l then
    (modifyAccount w i (fun a =>
       { a with allowed_destinations :=
           enable_many a.allowed_destinations (slotIds l) }), .ok ())
  else (w, .error .invalidArgument)

/-- Wallet::disable_transfer_destinations (wallet.rs lines 508-525). -/
def Wallet.disable_transfer_destinationsS (w : Wallet) (i : Nat)
    (l : List (Nat × AddressBookEntry)) : Wallet × Except ProgErr Unit :=
  let fr := disableLoopS w.address_book
    (w.balance_accounts.getD i default).allowed_destinations l
  (modifyAccount w i (fun a => { a with allowed_destinations := fr.1 }), fr.2)

/-- Final checks of Wallet::update (wallet.rs lines 205-227): the
requested threshold may not exceed the enabled approver count, the
resulting timeout must be in range, and the resulting threshold and
approver count may not be zero.  The wallet is not modified. -/
def updateConfigChecks (w : Wallet) (req : Nat) : Except ProgErr Unit :=
  if count_enabled w.config_approvers < req then .error .invalidArgument
  else
    match Wallet.validate_approval_timeout w.approval_timeout_for_config with
    | .error e => .error e
    | .ok _ =>
      if w.approvals_required_for_config = 0 then .error .invalidArgument
      else if count_enabled w.config_approvers = 0 then
        .error .invalidArgument
      else .ok ()

/-- Wallet::update (wallet.rs lines 189-228). -/
def Wallet.updateS (w : Wallet) (u : WalletUpdate) :
    Wallet × Except ProgErr Unit :=
  let w := { w with
    approvals_required_for_config := u.approvals_required_for_config,
    approval_timeout_for_config :=
      if 0 < u.approval_timeout_for_config then
        u.approval_timeout_for_config
      else w.approval_timeout_for_config }
  step (w.disable_config_approversS u.remove_config_approvers) fun w =>
  step (w.remove_signersS u.remove_signers) fun w =>
  step (w.add_signersS u.add_signers) fun w =>
  step (w.enable_config_approversS u.add_config_approvers) fun w =>
  step (w.remove_address_book_entriesS u.remove_address_book_entries) fun w =>
  step (w.add_address_book_entriesS u.add_address_book_entries) fun w =>
  (w, updateConfigChecks w u.approvals_required_for_config)

/-- Final checks of Wallet::update_config_policy (wallet.rs lines
260-278): the resulting threshold and timeout may not be zero and the
requested threshold may not exceed the enabled approver count.  The
wallet is not modified. -/
def configPolicyChecks (w : Wallet) (req : Nat) : Except ProgErr Unit :=
  if w.approvals_required_for_config = 0 then .error .invalidArgument
  else if w.approval_timeout_for_config = 0 then .error .invalidArgument
  else if count_enabled w.config_approvers < req then .error .invalidArgument
  else .ok ()

/-- Wallet::update_config_policy (wallet.rs lines 251-281). -/
def Wallet.update_config_policyS (w : Wallet)
    (u : WalletConfigPolicyUpdate) : Wallet × Except ProgErr Unit :=
  let w := { w with
    approvals_required_for_config := u.approvals_required_for_config,
    approval_timeout_for_config :=
      if 0 < u.approval_timeout_for_config then
        u.approval_timeout_for_config
      else w.approval_timeout_for_config }
  step (w.disable_config_approversS u.remove_config_approvers) fun w =>
  step (w.enable_config_approversS u.add_config_approvers) fun w =>
  (w, configPolicyChecks w u.approvals_required_for_config)

/-- Wallet::lock_config_policy_updates (wallet.rs lines 238-245). -/
def Wallet.lock_config_policy_updatesS (w : Wallet) :
    Wallet × Except ProgErr Unit :=
  if w.config_policy_update_locked then
    (w, .error .concurrentOperationsNotAllowed)
  else ({ w with config_policy_update_locked := true }, .ok ())

/-- Wallet::unlock_config_policy_updates (wallet.rs lines 247-249). -/
def Wallet.unlock_config_policy_updatesS (w : Wallet) : Wallet :=
  { w with config_policy_update_locked := false }

/-- Position of the first account with the given guid hash. -/
def findGuidIdx (g : Nat) : List BalanceAccount → Option Nat
  | [] => none
  | a :: rest =>
    if a.guid_hash = g then some 0 else (findGuidIdx g rest).map (· + 1)

/-- Wallet::get_balance_account_index (wallet.rs lines 77-85), as the
optional position of the first account with the given guid hash. -/
def Wallet.get_balance_account_index (w : Wallet) (g : Nat) : Option Nat :=
  findGuidIdx g w.balance_accounts

/-- Final section of Wallet::update_balance_account (wallet.rs lines
338-366): overwrite the name hash and transfer threshold, apply the
timeout when requested, then run the threshold checks. -/
def finishBalanceAccountUpdate (w : Wallet) (idx : Nat)
    (u : BalanceAccountUpdate) : Wallet × Except ProgErr Unit :=
  let w := modifyAccount w idx fun a =>
    { a with
      name_hash := u.name_hash,
      approvals_required_for_transfer := u.approvals_required_for_transfer,
      approval_timeout_for_transfer :=
        if 0 < u.approval_timeout_for_transfer then
          u.approval_timeout_for_transfer
        else a.approval_timeout_for_transfer }
  let acct := w.balance_accounts.getD idx default
  (w,
    if count_enabled acct.transfer_approvers <
        u.approvals_required_for_transfer then .error .invalidArgument
    else if acct.approvals_required_for_transfer = 0 then
      .error .invalidArgument
    else if count_enabled acct.transfer_approvers = 0 then
      .error .invalidArgument
    else .ok ())

/-- Wallet::update_balance_account (wallet.rs lines 318-367). -/
def Wallet.update_balance_accountS (w : Wallet) (g : Nat)
    (u : BalanceAccountUpdate) : Wallet × Except ProgErr Unit :=
  match w.get_balance_account_index g with
  | none => (w, .error .balanceAccountNotFound)
  | some idx =>
    step (w, if 0 < u.approval_timeout_for_transfer then
        Wallet.validate_approval_timeout u.approval_timeout_for_transfer
      else .ok ()) fun w =>
    step (w.disable_transfer_approversS idx u.remove_transfer_approvers)
      fun w =>
    step (w.enable_transfer_approversS idx u.add_transfer_approvers)
      fun w =>
    step (w.disable_transfer_destinationsS idx
      u.remove_allowed_destinations) fun w =>
    step (w.enable_transfer_destinationsS idx u.add_allowed_destinations)
      fun w => finishBalanceAccountUpdate w idx u

/-- Fresh balance account pushed by Wallet::add_balance_account
(wallet.rs lines 297-304).  Modelled from the spec for the three fields
absent from that constructor in the provided source (whitelist and dapp
toggles and the policy lock start out inactive). -/
def zeroBalanceAccount (g : Nat) : BalanceAccount :=
  { guid_hash := g, name_hash := 0, approvals_required_for_transfer := 0,
    approval_timeout_for_transfer := 0,
    transfer_approvers := List.replicate 24 false,
    allowed_destinations := List.replicate 128 false,
    whitelist_enabled := .Off, dapps_enabled := .Off,
    policy_update_locked := false }

/-- Wallet::add_balance_account (wallet.rs lines 292-307). -/
def Wallet.add_balance_accountS (w : Wallet) (g : Nat)
    (u : BalanceAccountUpdate) : Wallet × Except ProgErr Unit :=
  let w := { w with
    balance_accounts := w.balance_accounts ++ [zeroBalanceAccount g] }
  w.update_balance_accountS g u

/-- Wallet::remove_signer (wallet.rs lines 181-183). -/
def Wallet.remove_signerS (w : Wallet) (p : Nat × Signer) :
    Wallet × Except ProgErr Unit :=
  w.remove_signersS [p]

/-- Wallet::add_signer (wallet.rs lines 185-187). -/
def Wallet.add_signerS (w : Wallet) (p : Nat × Signer) :
    Wallet × Except ProgErr Unit :=
  w.add_signersS [p]

/-- Wallet::validate_update (wallet.rs lines 163-166): runs the mutator
on a clone of the receiver and returns only the result; the receiver is
returned unchanged. -/
def Wallet.validate_updateS (w : Wallet) (u : WalletUpdate) :
    Wallet × Except ProgErr Unit :=
  (w, (w.updateS u).2)

/-- Wallet::validate_config_policy_update (wallet.rs lines 230-236). -/
def Wallet.validate_config_policy_updateS (w : Wallet)
    (u : WalletConfigPolicyUpdate) : Wallet × Except ProgErr Unit :=
  (w, (w.update_config_policyS u).2)

/-- Wallet::validate_balance_account_update (wallet.rs lines 309-316). -/
def Wallet.validate_balance_account_updateS (w : Wallet) (g : Nat)
    (u : BalanceAccountUpdate) : Wallet × Except ProgErr Unit :=
  (w, (w.update_balance_accountS g u).2)

/-- Wallet::validate_add_balance_account (wallet.rs lines 283-290). -/
def Wallet.validate_add_balance_accountS (w : Wallet) (g : Nat)
    (u : BalanceAccountUpdate) : Wallet × Except ProgErr Unit :=
  (w, (w.add_balance_accountS g u).2)

/-- Wallet::validate_remove_signer (wallet.rs lines 168-174). -/
def Wallet.validate_remove_signerS (w : Wallet) (p : Nat × Signer) :
    Wallet × Except ProgErr Unit :=
  (w, (w.remove_signersS [p]).2)

/-! Initiator validation (wallet.rs lines 51-64, 94-106, 130-144).
`iter_enabled` over the flag set is modelled from the spec (section 4.2),
since src/utils.rs is not among the provided sources. -/

/-- Caller account as seen by the program: its key and whether the
transaction was signed by it. -/
structure AccountInfo where
  key : Nat
  is_signer : Bool
  deriving DecidableEq, Repr

/-- Wallet::get_approvers_keys (wallet.rs lines 59-64). -/
def Wallet.get_approvers_keys (w : Wallet) (flags : List Bool) : List Nat :=
  (iter_enabled flags).filterMap fun i => (slotGet w.signers i).map Signer.key

/-- Wallet::get_config_approvers_keys (wallet.rs lines 51-53). -/
def Wallet.get_config_approvers_keys (w : Wallet) : List Nat :=
  w.get_approvers_keys w.config_approvers

/-- Wallet::get_transfer_approvers_keys (wallet.rs lines 55-57). -/
def Wallet.get_transfer_approvers_keys (w : Wallet) (a : BalanceAccount) :
    List Nat :=
  w.get_approvers_keys a.transfer_approvers

/-- Wallet::validate_initiator (wallet.rs lines 130-144), specialised to
the key list produced by the scope closure. -/
def Wallet.validate_initiator (w : Wallet) (init : AccountInfo)
    (keys : List Nat) : Except ProgErr Unit :=
  if ¬ init.is_signer then .error .invalidSignature
  else if init.key = w.assistant.key ∨ init.key ∈ keys then .ok ()
  else .error .invalidArgument

/-- Wallet::validate_config_initiator (wallet.rs lines 94-96). -/
def Wallet.validate_config_initiator (w : Wallet) (init : AccountInfo) :
    Except ProgErr Unit :=
  w.validate_initiator init w.get_config_approvers_keys

/-- Wallet::validate_transfer_initiator (wallet.rs lines 98-106). -/
def Wallet.validate_transfer_initiator (w : Wallet) (a : BalanceAccount)
    (init : AccountInfo) : Except ProgErr Unit :=
  w.validate_initiator init (w.get_transfer_approvers_keys a)

/-! Handler finalize discipline: a handler unpacks the wallet, runs the
mutator and packs the result back only when the mutator returned Ok (the
pattern of balance_account_creation_handler::finalize, lines 63-68), so a
rejected operation never reaches the persisted record. -/

/-- Persisted effect of a wallet update under the handler discipline:
the mutated wallet replaces the stored one only on Ok. -/
def Wallet.finalize_update (w : Wallet) (u : WalletUpdate) : Wallet :=
  match w.updateS u with
  | (wp, .ok _) => wp
  | (_, .error _) => w

/-- Persisted effect of a config policy update under the handler
discipline. -/
def Wallet.finalize_config_policy_update (w : Wallet)
    (u : WalletConfigPolicyUpdate) : Wallet :=
  match w.update_config_policyS u with
  | (wp, .ok _) => wp
  | (_, .error _) => w

/-- Persisted effect of a balance account update under the handler
discipline. -/
def Wallet.finalize_balance_account_update (w : Wallet) (g : Nat)
    (u : BalanceAccountUpdate) : Wallet :=
  match w.update_balance_accountS g u with
  | (wp, .ok _) => wp
  | (_, .error _) => w

/-! Binary layout codec.  The BalanceAccount and Wallet layouts follow
the Pack impls in src/model/balance_account.rs (lines 67-158) and
src/model/wallet.rs (lines 528-645).  The layouts of the signer slots,
the address-book slots and a single Signer are modelled from the spec
(sections 3 and 6), since src/utils.rs, src/model/signer.rs and
src/model/address_book.rs are not among the provided sources: each slot
is a one-byte occupancy flag followed by the fixed-size payload, empty
slots zero-filled; integers are little-endian. -/

/-- Little-endian encoding of a natural into k bytes. -/
def natToLE (k : Nat) (n : Nat) : List Nat :=
  match k with
  | 0 => []
  | k + 1 => (n % 256) :: natToLE k (n / 256)

/-- Little-endian decoding of a byte list. -/
def leToNat : List Nat → Nat
  | [] => 0
  | b :: rest => b + 256 * leToNat rest

/-- Bits 0 to 7 of a byte, lowest first. -/
def byteBits (b : Nat) : List Bool :=
  [b.testBit 0, b.testBit 1, b.testBit 2, b.testBit 3,
   b.testBit 4, b.testBit 5, b.testBit 6, b.testBit 7]

/-- Byte assembled from eight bits, lowest first. -/
def byteVal (b0 b1 b2 b3 b4 b5 b6 b7 : Bool) : Nat :=
  b0.toNat + 2 * b1.toNat + 4 * b2.toNat + 8 * b3.toNat +
  16 * b4.toNat + 32 * b5.toNat + 64 * b6.toNat + 128 * b7.toNat

/-- Flag bits packed into bytes, eight per byte, lowest bit first. -/
def bitsToBytes : List Bool → List Nat
  | b0 :: b1 :: b2 :: b3 :: b4 :: b5 :: b6 :: b7 :: rest =>
    byteVal b0 b1 b2 b3 b4 b5 b6 b7 :: bitsToBytes rest
  | _ => []

/-- Flag bytes expanded back into bits. -/
def bytesToBits : List Nat → List Bool
  | [] => []
  | b :: rest => byteBits b ++ bytesToBits rest

/-- Modelled from the spec: packed form of one Signer (32-byte key). -/
def packSigner (s : Signer) : List Nat :=
  natToLE 32 s.key

/-- Modelled from the spec: packed form of one signer slot (occupancy
byte then payload, zero-filled when empty). -/
def packSignerSlot : Option Signer → List Nat
  | none => 0 :: List.replicate 32 0
  | some s => 1 :: packSigner s

/-- Packed signer slot store region. -/
def packSignerSlots (l : List (Option Signer)) : List Nat :=
  l.foldr (fun o acc => packSignerSlot o ++ acc) []

/-- Decoder for k signer slots; a flag byte other than 0 or 1 is a
malformed record. -/
def unpackSignerSlots : Nat → List Nat → Except ProgErr (List (Option Signer))
  | 0, _ => .ok []
  | k + 1, b =>
    let payload := b.drop 1
    let rest := payload.drop 32
    if b.headD 0 = 0 then (unpackSignerSlots k rest).map (none :: ·)
    else if b.headD 0 = 1 then
      (unpackSignerSlots k rest).map
        (some ⟨leToNat (payload.take 32)⟩ :: ·)
    else .error .invalidAccountData

/-- Modelled from the spec: packed form of one AddressBookEntry (32-byte
address then 32-byte name hash). -/
def packEntry (e : AddressBookEntry) : List Nat :=
  natToLE 32 e.address ++ natToLE 32 e.name_hash

/-- Modelled from the spec: packed form of one address-book slot. -/
def packEntrySlot : Option AddressBookEntry → List Nat
  | none => 0 :: List.replicate 64 0
  | some e => 1 :: packEntry e

/-- Packed address-book slot store region. -/
def packEntrySlots (l : List (Option AddressBookEntry)) : List Nat :=
  l.foldr (fun o acc => packEntrySlot o ++ acc) []

/-- Decoder for k address-book slots. -/
def unpackEntrySlots : Nat → List Nat →
    Except ProgErr (List (Option AddressBookEntry))
  | 0, _ => .ok []
  | k + 1, b =>
    let payload := b.drop 1
    let p2 := payload.drop 32
    let rest := p2.drop 32
    if b.headD 0 = 0 then (unpackEntrySlots k rest).map (none :: ·)
    else if b.headD 0 = 1 then
      (unpackEntrySlots k rest).map
        (some ⟨leToNat (payload.take 32), leToNat (p2.take 32)⟩ :: ·)
    else .error .invalidAccountData

/-- BalanceAccount::LEN (balance_account.rs lines 68-75): 94 bytes. -/
def BalanceAccount.LEN : Nat := 32 + 32 + 1 + 8 + 3 + 16 + 1 + 1

/-- BalanceAccount pack_into_slice (balance_account.rs lines 77-112),
written into a zero-filled destination as Wallet::pack_into_slice does. -/
def BalanceAccount.pack (a : BalanceAccount) : List Nat :=
  natToLE 32 a.guid_hash ++
  (natToLE 32 a.name_hash ++
  (a.approvals_required_for_transfer ::
  (natToLE 8 a.approval_timeout_for_transfer ++
  (bitsToBytes a.transfer_approvers ++
  (bitsToBytes a.allowed_destinations ++
  ((a.whitelist_enabled.to_u8 <<< 0 ||| a.dapps_enabled.to_u8 <<< 1) ::
  [if a.policy_update_locked then 1 else 0]))))))

/-- BalanceAccount::unpack_from_slice field extraction
(balance_account.rs lines 114-158): total, with no failing branch; the
fixed-offset array_refs split is read sequentially. -/
def unpackBalanceAccountF (b : List Nat) : BalanceAccount :=
  let r1 := b.drop 32
  let r2 := r1.drop 32
  let r3 := r2.drop 1
  let r4 := r3.drop 8
  let r5 := r4.drop 3
  let r6 := r5.drop 16
  let r7 := r6.drop 1
  { guid_hash := leToNat (b.take 32)
  , name_hash := leToNat (r1.take 32)
  , approvals_required_for_transfer := r2.headD 0
  , approval_timeout_for_transfer := leToNat (r3.take 8)
  , transfer_approvers := bytesToBits (r4.take 3)
  , allowed_destinations := bytesToBits (r5.take 16)
  , whitelist_enabled := .from_u8 (r6.headD 0 &&& 1 <<< 0)
  , dapps_enabled := .from_u8 (r6.headD 0 &&& 1 <<< 1)
  , policy_update_locked := r7.headD 0 == 1 }

/-- BalanceAccount::unpack_from_slice (balance_account.rs lines
114-158). -/
def BalanceAccount.unpack_from_slice (b : List Nat) :
    Except ProgErr BalanceAccount :=
  .ok (unpackBalanceAccountF b)

/-- Wallet pack_into_slice (wallet.rs lines 539-586): concatenation of
the fixed regions, the unused balance-account tail zero-filled. -/
def Wallet.pack (w : Wallet) : List Nat :=
  (if w.is_initialized then 1 else 0) ::
  (packSignerSlots w.signers ++
  (packSigner w.assistant ++
  (packEntrySlots w.address_book ++
  (w.approvals_required_for_config ::
  (natToLE 8 w.approval_timeout_for_config ++
  (bitsToBytes w.config_approvers ++
  (w.balance_accounts.length ::
  ((w.balance_accounts.foldr
      (fun a acc => BalanceAccount.pack a ++ acc) [] ++
    List.replicate ((MAX_BALANCE_ACCOUNTS - w.balance_accounts.length) *
      BalanceAccount.LEN) 0) ++
  [if w.config_policy_update_locked then 1 else 0]))))))))

/-- Balance-account region decoder (wallet.rs lines 615-621):
chunks_exact over the 940-byte region, taking the stored count of
chunks (at most ten chunks exist). -/
def unpackAccounts : Nat → List Nat → List BalanceAccount
  | 0, _ => []
  | k + 1, b => unpackBalanceAccountF (b.take 94) :: unpackAccounts k (b.drop 94)

/-- Decoder for a one-byte boolean flag (wallet.rs lines 624-627 and
638-642): 0 is false, 1 is true, anything else malforms the record. -/
def boolByte (n : Nat) : Except ProgErr Bool :=
  if n = 0 then .ok false
  else if n = 1 then .ok true
  else .error .invalidAccountData

/-- Wallet::unpack_from_slice (wallet.rs lines 588-644). -/
def Wallet.unpack_from_slice (b : List Nat) : Except ProgErr Wallet := do
  let is_init ← boolByte (b.headD 0)
  let r1 := b.drop 1
  let signers ← unpackSignerSlots 24 (r1.take 792)
  let r2 := r1.drop 792
  let assistant := Signer.mk (leToNat (r2.take 32))
  let r3 := r2.drop 32
  let address_book ← unpackEntrySlots 128 (r3.take 8320)
  let r4 := r3.drop 8320
  let approvals := r4.headD 0
  let r5 := r4.drop 1
  let timeout := leToNat (r5.take 8)
  let r6 := r5.drop 8
  let approvers := bytesToBits (r6.take 3)
  let r7 := r6.drop 3
  let count := r7.headD 0
  let r8 := r7.drop 1
  let accounts := unpackAccounts (min count 10) (r8.take 940)
  let r9 := r8.drop 940
  let locked ← boolByte (r9.headD 0)
  pure { is_initialized := is_init, signers := signers,
         assistant := assistant, address_book := address_book,
         approvals_required_for_config := approvals,
         approval_timeout_for_config := timeout,
         config_approvers := approvers,
         balance_accounts := accounts,
         config_policy_update_locked := locked }

/-! Well-formedness: the representation invariants the Rust types carry
statically (fixed array lengths, machine-integer bounds). -/

def Signer.WF (s : Signer) : Prop :=
  s.key < 256 ^ 32

def AddressBookEntry.WF (e : AddressBookEntry) : Prop :=
  e.address < 256 ^ 32 ∧ e.name_hash < 256 ^ 32

def BalanceAccount.WF (a : BalanceAccount) : Prop :=
  a.guid_hash < 256 ^ 32 ∧ a.name_hash < 256 ^ 32 ∧
  a.approvals_required_for_transfer < 256 ∧
  a.approval_timeout_for_transfer < 256 ^ 8 ∧
  a.transfer_approvers.length = 24 ∧ a.allowed_destinations.length = 128

def Wallet.WF (w : Wallet) : Prop :=
  w.signers.length = 24 ∧
  (∀ o ∈ w.signers, (o.getD ⟨0⟩).WF) ∧
  w.assistant.WF ∧
  w.address_book.length = 128 ∧
  (∀ o ∈ w.address_book, (o.getD ⟨0, 0⟩).WF) ∧
  w.approvals_required_for_config < 256 ∧
  w.approval_timeout_for_config < 256 ^ 8 ∧
  w.config_approvers.length = 24 ∧
  w.balance_accounts.length ≤ 10 ∧
  ∀ a ∈ w.balance_accounts, a.WF

/-- Threshold invariant (spec section 8): in every scope the required
approval count lies between 1 and the number of enabled approvers. -/
def ThresholdInv (w : Wallet) : Prop :=
  (1 ≤ w.approvals_required_for_config ∧
    w.approvals_required_for_config ≤ count_enabled w.config_approvers) ∧
  ∀ a ∈ w.balance_accounts,
    1 ≤ a.approvals_required_for_transfer ∧
    a.approvals_required_for_transfer ≤ count_enabled a.transfer_approvers

instance (w : Wallet) : Decidable (ThresholdInv w) := by
  unfold ThresholdInv; infer_instance

instance (a : BalanceAccount) : Decidable (a.WF) := by
  unfold BalanceAccount.WF; infer_instance

instance (w : Wallet) : Decidable (w.WF) := by
  unfold Wallet.WF Signer.WF AddressBookEntry.WF; infer_instance

/-! Concrete wallets used by witnesses and counterexamples. -/

/-- Wallet with two stored signers, the first enabled as the only config
approver, config threshold 1, timeout 3600 seconds, no balance accounts. -/
def wBase : Wallet :=
  { is_initialized := true
  , signers :=
      ((List.replicate 24 (none : Option Signer)).set 0 (some ⟨1⟩)).set 1
        (some ⟨2⟩)
  , assistant := ⟨9⟩
  , address_book := List.replicate 128 none
  , approvals_required_for_config := 1
  , approval_timeout_for_config := 3600
  , config_approvers := (List.replicate 24 false).set 0 true
  , balance_accounts := []
  , config_policy_update_locked := false }

/-- Balance account stored in `wAcct`: guid 5, name 1, threshold 1, the
first signer enabled as its only transfer approver. -/
def acctBase : BalanceAccount :=
  { guid_hash := 5, name_hash := 1, approvals_required_for_transfer := 1,
    approval_timeout_for_transfer := 3600,
    transfer_approvers := (List.replicate 24 false).set 0 true,
    allowed_destinations := List.replicate 128 false,
    whitelist_enabled := .Off, dapps_enabled := .Off,
    policy_update_locked := false }

/-- wBase extended with one valid balance account. -/
def wAcct : Wallet :=
  { wBase with balance_accounts := [acctBase] }

/-! Claim theorems. -/

/-- C4: each pure validator (validate_update,
validate_config_policy_update, validate_balance_account_update,
validate_add_balance_account) leaves the receiver wallet unchanged and
returns Ok exactly when the corresponding in-place mutator, applied to an
identical copy of the wallet, returns Ok. -/
theorem validators_pure_and_agree_with_mutators (w : Wallet)
    (u : WalletUpdate) (cu : WalletConfigPolicyUpdate) (g : Nat)
    (bu : BalanceAccountUpdate) :
    ((w.validate_updateS u).1 = w ∧
      ((w.validate_updateS u).2 = .ok () ↔ (w.updateS u).2 = .ok ())) ∧
    ((w.validate_config_policy_updateS cu).1 = w ∧
      ((w.validate_config_policy_updateS cu).2 = .ok () ↔
        (w.update_config_policyS cu).2 = .ok ())) ∧
    ((w.validate_balance_account_updateS g bu).1 = w ∧
      ((w.validate_balance_account_updateS g bu).2 = .ok () ↔
        (w.update_balance_accountS g bu).2 = .ok ())) ∧
    ((w.validate_add_balance_accountS g bu).1 = w ∧
      ((w.validate_add_balance_accountS g bu).2 = .ok () ↔
        (w.add_balance_accountS g bu).2 = .ok ())) :=
  ⟨⟨rfl, Iff.rfl⟩, ⟨rfl, Iff.rfl⟩, ⟨rfl, Iff.rfl⟩, ⟨rfl, Iff.rfl⟩⟩

/-- C8: lock_config_policy_updates fails with
ConcurrentOperationsNotAllowed and leaves the flag set when the lock is
already held, sets the flag and returns Ok otherwise, and
unlock_config_policy_updates always clears the flag. -/
theorem lock_unlock_config_policy_spec (w : Wallet) :
    (w.config_policy_update_locked = true →
      w.lock_config_policy_updatesS =
        (w, .error .concurrentOperationsNotAllowed)) ∧
    (w.config_policy_update_locked = false →
      w.lock_config_policy_updatesS =
        ({ w with config_policy_update_locked := true }, .ok ())) ∧
    w.unlock_config_policy_updatesS =
      { w with config_policy_update_locked := false } := by
  refine ⟨fun h => ?_, fun h => ?_, rfl⟩ <;>
    simp [Wallet.lock_config_policy_updatesS, h]

/-- Witness for C8: a second lock attempt on a locked wallet fails while
the first lock attempt on an unlocked wallet succeeds. -/
theorem lock_unlock_config_policy_spec_witness :
    wBase.lock_config_policy_updatesS =
      ({ wBase with config_policy_update_locked := true }, .ok ()) ∧
    Wallet.lock_config_policy_updatesS
        { wBase with config_policy_update_locked := true } =
      ({ wBase with config_policy_update_locked := true },
        .error .concurrentOperationsNotAllowed) :=
  ⟨(lock_unlock_config_policy_spec wBase).2.1 rfl,
   (lock_unlock_config_policy_spec
      { wBase with config_policy_update_locked := true }).1 rfl⟩

lemma step_pres {P : Wallet → Prop} {x : Wallet × Except ProgErr Unit}
    {f : Wallet → Wallet × Except ProgErr Unit}
    (hx : P x.1) (hf : ∀ v, P v → P (f v).1) : P (step x f).1 := by
  rcases x with ⟨w, r⟩
  cases r with
  | ok a => exact hf w hx
  | error e => exact hx

lemma step_error {x : Wallet × Except ProgErr Unit}
    {f : Wallet → Wallet × Except ProgErr Unit} {e : ProgErr}
    (h : x.2 = .error e) : step x f = x := by
  rcases x with ⟨w, r⟩
  cases r with
  | ok a => simp at h
  | error e2 => rfl

lemma step_ok_inv {x : Wallet × Except ProgErr Unit}
    {f : Wallet → Wallet × Except ProgErr Unit}
    (h : (step x f).2 = .ok ()) : x.2 = .ok () ∧ (f x.1).2 = .ok () := by
  rcases x with ⟨w, r⟩
  cases r with
  | ok a => cases a; exact ⟨rfl, h⟩
  | error e => exact absurd h fun hh => Except.noConfusion hh

lemma step_ok {x : Wallet × Except ProgErr Unit}
    {f : Wallet → Wallet × Except ProgErr Unit}
    (h : x.2 = .ok ()) : step x f = f x.1 := by
  rcases x with ⟨w, r⟩
  cases r with
  | ok a => rfl
  | error e2 => simp at h

/-- Agreement of two wallets on every field other than the config policy
triple (threshold, timeout, config approver flags). -/
abbrev SameNonPolicy (w v : Wallet) : Prop :=
  v.is_initialized = w.is_initialized ∧ v.signers = w.signers ∧
  v.assistant = w.assistant ∧ v.address_book = w.address_book ∧
  v.balance_accounts = w.balance_accounts ∧
  v.config_policy_update_locked = w.config_policy_update_locked

lemma sameNonPolicy_refl (w : Wallet) : SameNonPolicy w w :=
  ⟨rfl, rfl, rfl, rfl, rfl, rfl⟩

lemma sameNonPolicy_trans {w v x : Wallet} (a : SameNonPolicy w v)
    (b : SameNonPolicy v x) : SameNonPolicy w x :=
  ⟨b.1.trans a.1, b.2.1.trans a.2.1, b.2.2.1.trans a.2.2.1,
   b.2.2.2.1.trans a.2.2.2.1, b.2.2.2.2.1.trans a.2.2.2.2.1,
   b.2.2.2.2.2.trans a.2.2.2.2.2⟩

lemma update_config_policyS_frame (w : Wallet)
    (u : WalletConfigPolicyUpdate) :
    SameNonPolicy w (w.update_config_policyS u).1 := by
  unfold Wallet.update_config_policyS
  apply step_pres
  · exact ⟨rfl, rfl, rfl, rfl, rfl, rfl⟩
  · intro v hv
    apply step_pres
    · unfold Wallet.enable_config_approversS
      split
      · exact sameNonPolicy_trans hv ⟨rfl, rfl, rfl, rfl, rfl, rfl⟩
      · exact hv
    · intro x hx2
      exact hx2

/-- C9: a successful update_config_policy changes only the config
threshold, the config timeout and the config approver flags; the signer
store, the assistant, the address book, the balance accounts, the
initialization flag and the policy-update lock are unchanged. -/
theorem update_config_policy_changes_only_policy_fields (w : Wallet)
    (u : WalletConfigPolicyUpdate) (w' : Wallet)
    (h : w.update_config_policyS u = (w', .ok ())) :
    w'.signers = w.signers ∧ w'.assistant = w.assistant ∧
    w'.address_book = w.address_book ∧
    w'.balance_accounts = w.balance_accounts ∧
    w'.is_initialized = w.is_initialized ∧
    w'.config_policy_update_locked = w.config_policy_update_locked := by
  have hf := update_config_policyS_frame w u
  rw [h] at hf
  exact ⟨hf.2.1, hf.2.2.1, hf.2.2.2.1, hf.2.2.2.2.1, hf.1,
    hf.2.2.2.2.2⟩

/-- Config policy update that keeps threshold 1 and leaves the timeout
unchanged. -/
def cpuNoop : WalletConfigPolicyUpdate :=
  { approvals_required_for_config := 1, approval_timeout_for_config := 0,
    add_config_approvers := [], remove_config_approvers := [] }

/-- Witness for C9: a concrete successful config policy update on wBase
leaves the non-policy fields unchanged. -/
theorem update_config_policy_changes_only_policy_fields_witness :
    wBase.signers = wBase.signers ∧ wBase.assistant = wBase.assistant ∧
    wBase.address_book = wBase.address_book ∧
    wBase.balance_accounts = wBase.balance_accounts ∧
    wBase.is_initialized = wBase.is_initialized ∧
    wBase.config_policy_update_locked = wBase.config_policy_update_locked :=
  update_config_policy_changes_only_policy_fields wBase cpuNoop wBase
    (by decide)

/-- Wallet update requesting a zero config threshold: rejected, but only
after the threshold field was already overwritten in place. -/
def wuZeroThreshold : WalletUpdate :=
  { approvals_required_for_config := 0, approval_timeout_for_config := 0,
    add_signers := [], remove_signers := [], add_config_approvers := [],
    remove_config_approvers := [], add_address_book_entries := [],
    remove_address_book_entries := [] }

/-- Counterexample for C2: Wallet::update on wBase with a zero requested
threshold returns an error, yet the receiver wallet afterwards differs
from the wallet before the call (its stored threshold is already 0), so
an erroring mutator does not leave the in-place state unchanged. -/
theorem mutator_error_partial_update_counterexample :
    (wBase.updateS wuZeroThreshold).2 = .error .invalidArgument ∧
    (wBase.updateS wuZeroThreshold).1 ≠ wBase := by decide

/-- Balance account update carrying threshold 1 and no other changes. -/
def buNoop : BalanceAccountUpdate :=
  { name_hash := 0, approvals_required_for_transfer := 1,
    approval_timeout_for_transfer := 0, add_transfer_approvers := [],
    remove_transfer_approvers := [], add_allowed_destinations := [],
    remove_allowed_destinations := [] }

/-- C2 amended: an erroring mutator can leave the in-memory wallet
partially updated, but a rejected operation never reaches the persisted
state: under the handler discipline the mutated wallet is written back
only on Ok, and the pure validators return the error with the receiver
wallet unchanged. -/
theorem rejected_mutation_never_persisted (w : Wallet) (u : WalletUpdate)
    (cu : WalletConfigPolicyUpdate) (g : Nat) (bu : BalanceAccountUpdate) :
    (∀ e, (w.updateS u).2 = .error e → w.finalize_update u = w) ∧
    (∀ e, (w.update_config_policyS cu).2 = .error e →
      w.finalize_config_policy_update cu = w) ∧
    (∀ e, (w.update_balance_accountS g bu).2 = .error e →
      w.finalize_balance_account_update g bu = w) ∧
    (w.validate_updateS u).1 = w ∧
    (w.validate_config_policy_updateS cu).1 = w ∧
    (w.validate_balance_account_updateS g bu).1 = w := by
  refine ⟨fun e he => ?_, fun e he => ?_, fun e he => ?_, rfl, rfl, rfl⟩
  · unfold Wallet.finalize_update
    rcases hx : w.updateS u with ⟨wp, r⟩
    rw [hx] at he
    cases r with
    | ok a => simp at he
    | error e2 => simp
  · unfold Wallet.finalize_config_policy_update
    rcases hx : w.update_config_policyS cu with ⟨wp, r⟩
    rw [hx] at he
    cases r with
    | ok a => simp at he
    | error e2 => simp
  · unfold Wallet.finalize_balance_account_update
    rcases hx : w.update_balance_accountS g bu with ⟨wp, r⟩
    rw [hx] at he
    cases r with
    | ok a => simp at he
    | error e2 => simp

/-- Config policy update requesting a zero threshold: always rejected. -/
def cpuZeroThreshold : WalletConfigPolicyUpdate :=
  { approvals_required_for_config := 0, approval_timeout_for_config := 0,
    add_config_approvers := [], remove_config_approvers := [] }

/-- Witness for the amended C2: three concrete rejected operations leave
the persisted wallet unchanged. -/
theorem rejected_mutation_never_persisted_witness :
    wBase.finalize_update wuZeroThreshold = wBase ∧
    wBase.finalize_config_policy_update cpuZeroThreshold = wBase ∧
    wBase.finalize_balance_account_update 5 buNoop = wBase :=
  ⟨(rejected_mutation_never_persisted wBase wuZeroThreshold cpuZeroThreshold
      5 buNoop).1 .invalidArgument (by decide),
   (rejected_mutation_never_persisted wBase wuZeroThreshold cpuZeroThreshold
      5 buNoop).2.1 .invalidArgument (by decide),
   (rejected_mutation_never_persisted wBase wuZeroThreshold cpuZeroThreshold
      5 buNoop).2.2.1 .balanceAccountNotFound (by decide)⟩

/-- C7: initiator validation succeeds exactly when the initiator signed
and its key is the assistant key or the key of a currently enabled
approver of the relevant scope; a non-signing initiator is rejected with
InvalidSignature and a signing but unauthorized one with
InvalidArgument.  The validators are pure, so no state is touched. -/
theorem initiator_validation_spec (w : Wallet) (a : AccountInfo)
    (ba : BalanceAccount) :
    (w.validate_config_initiator a = .ok () ↔
      a.is_signer = true ∧
        (a.key = w.assistant.key ∨ a.key ∈ w.get_config_approvers_keys)) ∧
    (w.validate_transfer_initiator ba a = .ok () ↔
      a.is_signer = true ∧
        (a.key = w.assistant.key ∨
          a.key ∈ w.get_transfer_approvers_keys ba)) ∧
    (a.is_signer = false →
      w.validate_config_initiator a = .error .invalidSignature ∧
      w.validate_transfer_initiator ba a = .error .invalidSignature) ∧
    (a.is_signer = true →
      ¬ (a.key = w.assistant.key ∨ a.key ∈ w.get_config_approvers_keys) →
      w.validate_config_initiator a = .error .invalidArgument) ∧
    (a.is_signer = true →
      ¬ (a.key = w.assistant.key ∨
          a.key ∈ w.get_transfer_approvers_keys ba) →
      w.validate_transfer_initiator ba a = .error .invalidArgument) := by
  unfold Wallet.validate_config_initiator Wallet.validate_transfer_initiator
    Wallet.validate_initiator
  refine ⟨?_, ?_, fun hs => ?_, fun hs hn => ?_, fun hs hn => ?_⟩ <;>
    split_ifs <;> simp_all

/-- Witness for C7: on wBase a non-signing account is rejected with
InvalidSignature and a signing but unauthorized account with
InvalidArgument. -/
theorem initiator_validation_spec_witness :
    wBase.validate_config_initiator ⟨7, false⟩ = .error .invalidSignature ∧
    wBase.validate_transfer_initiator acctBase ⟨7, false⟩ =
      .error .invalidSignature ∧
    wBase.validate_config_initiator ⟨7, true⟩ = .error .invalidArgument :=
  ⟨((initiator_validation_spec wBase ⟨7, false⟩ acctBase).2.2.1 rfl).1,
   ((initiator_validation_spec wBase ⟨7, false⟩ acctBase).2.2.1 rfl).2,
   (initiator_validation_spec wBase ⟨7, true⟩ acctBase).2.2.2.1 rfl
     (by decide)⟩

lemma getD_eq_headD_drop (l : List α) (n : Nat) (d : α) :
    l.getD n d = (l.drop n).headD d := by
  induction l generalizing n with
  | nil => cases n <;> rfl
  | cons x xs ih =>
    cases n with
    | zero => rfl
    | succ m =>
      show xs.getD m d = _
      rw [ih m]
      rfl

/-- C10: BalanceAccount::unpack_from_slice is total on well-sized input:
it always returns Ok; the policy lock byte is read as true only when it
is exactly 1, and of the packed boolean-settings byte only bits 0 and 1
are read (as the whitelist and dapps toggles). -/
theorem balance_account_unpack_total (b : List Nat)
    (_hsized : BalanceAccount.LEN ≤ b.length) :
    ∃ a, BalanceAccount.unpack_from_slice b = .ok a ∧
      (a.policy_update_locked = true ↔ b.getD 93 0 = 1) ∧
      (a.whitelist_enabled = .On ↔ (b.getD 92 0).testBit 0 = true) ∧
      (a.dapps_enabled = .On ↔ (b.getD 92 0).testBit 1 = true) := by
  have e92 : b.getD 92 0 =
      ((((((b.drop 32).drop 32).drop 1).drop 8).drop 3).drop 16).headD 0 := by
    rw [getD_eq_headD_drop]
    simp [List.drop_drop]
  have e93 : b.getD 93 0 =
      (((((((b.drop 32).drop 32).drop 1).drop 8).drop
        3).drop 16).drop 1).headD 0 := by
    rw [getD_eq_headD_drop]
    simp [List.drop_drop]
  refine ⟨unpackBalanceAccountF b, rfl, ?_, ?_, ?_⟩
  · simp only [unpackBalanceAccountF]
    rw [e93]
    simp [beq_iff_eq]
  · simp only [unpackBalanceAccountF]
    rw [e92]
    have h1 : ∀ x : Nat, x &&& 1 <<< 0 = (x.testBit 0).toNat * 2 ^ 0 :=
      fun x => by simpa using Nat.and_two_pow x 0
    rw [h1]
    cases hb : ((((((((b.drop 32).drop 32).drop 1).drop 8).drop
        3).drop 16)).headD 0).testBit 0 <;> simp [BooleanSetting.from_u8]
  · simp only [unpackBalanceAccountF]
    rw [e92]
    have h2 : ∀ x : Nat, x &&& 1 <<< 1 = (x.testBit 1).toNat * 2 ^ 1 :=
      fun x => by simpa using Nat.and_two_pow x 1
    rw [h2]
    cases hb : ((((((((b.drop 32).drop 32).drop 1).drop 8).drop
        3).drop 16)).headD 0).testBit 1 <;> simp [BooleanSetting.from_u8]

/-- Witness for C10: a concrete 94-byte buffer whose policy byte is 2
decodes successfully. -/
theorem balance_account_unpack_total_witness :
    ∃ a, BalanceAccount.unpack_from_slice (List.replicate 94 2) = .ok a ∧
      (a.policy_update_locked = true ↔
        (List.replicate 94 2).getD 93 0 = 1) ∧
      (a.whitelist_enabled = .On ↔
        ((List.replicate 94 2).getD 92 0).testBit 0 = true) ∧
      (a.dapps_enabled = .On ↔
        ((List.replicate 94 2).getD 92 0).testBit 1 = true) :=
  balance_account_unpack_total (List.replicate 94 2) (by decide)

lemma findGuidIdx_lt_length {g : Nat} :
    ∀ {l : List BalanceAccount} {i}, findGuidIdx g l = some i →
      i < l.length := by
  intro l
  induction l with
  | nil => intro i h; simp [findGuidIdx] at h
  | cons a rest ih =>
    intro i h
    rw [findGuidIdx] at h
    split at h
    · cases h; simp
    · cases hx : findGuidIdx g rest with
      | none => rw [hx] at h; simp at h
      | some j =>
        rw [hx] at h
        simp at h
        have := ih hx
        simp
        omega

lemma modifyAccount_len (v : Wallet) (i : Nat)
    (f : BalanceAccount → BalanceAccount) :
    (modifyAccount v i f).balance_accounts.length =
      v.balance_accounts.length := by
  simp [modifyAccount]

lemma modifyAccount_getD (v : Wallet) (i : Nat)
    (f : BalanceAccount → BalanceAccount)
    (h : i < v.balance_accounts.length) :
    (modifyAccount v i f).balance_accounts.getD i default =
      f (v.balance_accounts.getD i default) := by
  simp [modifyAccount, List.getD, List.getElem?_set_self, h]

/-- Invariant tracked through the four flag operations of
update_balance_account: the account list length and the target account
scalar fields are untouched (only its flag sets change). -/
abbrev AcctScalarFrame (L : Nat) (i : Nat) (gh nh ar at2 : Nat)
    (v : Wallet) : Prop :=
  v.balance_accounts.length = L ∧
  (v.balance_accounts.getD i default).guid_hash = gh ∧
  (v.balance_accounts.getD i default).name_hash = nh ∧
  (v.balance_accounts.getD i default).approvals_required_for_transfer = ar ∧
  (v.balance_accounts.getD i default).approval_timeout_for_transfer = at2

lemma acctScalarFrame_modify {L i gh nh ar at2} {v : Wallet}
    (hv : AcctScalarFrame L i gh nh ar at2 v)
    (f : BalanceAccount → BalanceAccount)
    (hf : ∀ a, (f a).guid_hash = a.guid_hash ∧ (f a).name_hash = a.name_hash ∧
      (f a).approvals_required_for_transfer =
        a.approvals_required_for_transfer ∧
      (f a).approval_timeout_for_transfer = a.approval_timeout_for_transfer) :
    AcctScalarFrame L i gh nh ar at2 (modifyAccount v i f) := by
  obtain ⟨hL, h1, h2, h3, h4⟩ := hv
  by_cases hi : i < v.balance_accounts.length
  · rw [AcctScalarFrame, modifyAccount_len, modifyAccount_getD v i f hi]
    obtain ⟨g1, g2, g3, g4⟩ := hf (v.balance_accounts.getD i default)
    exact ⟨hL, g1.trans h1, g2.trans h2, g3.trans h3, g4.trans h4⟩
  · have : v.balance_accounts.set i
        (f (v.balance_accounts.getD i default)) = v.balance_accounts := by
      apply List.set_eq_of_length_le
      omega
    rw [AcctScalarFrame, modifyAccount, this]
    exact ⟨hL, h1, h2, h3, h4⟩

lemma transfer_flag_ops_scalar_frame {L i gh nh ar at2} {v : Wallet}
    (hv : AcctScalarFrame L i gh nh ar at2 v)
    (ls : List (Nat × Signer)) (ld : List (Nat × AddressBookEntry)) :
    AcctScalarFrame L i gh nh ar at2 (v.disable_transfer_approversS i ls).1 ∧
    AcctScalarFrame L i gh nh ar at2 (v.enable_transfer_approversS i ls).1 ∧
    AcctScalarFrame L i gh nh ar at2
      (v.disable_transfer_destinationsS i ld).1 ∧
    AcctScalarFrame L i gh nh ar at2
      (v.enable_transfer_destinationsS i ld).1 := by
  refine ⟨?_, ?_, ?_, ?_⟩
  · exact acctScalarFrame_modify hv _ fun a => ⟨rfl, rfl, rfl, rfl⟩
  · unfold Wallet.enable_transfer_approversS
    split
    · exact acctScalarFrame_modify hv _ fun a => ⟨rfl, rfl, rfl, rfl⟩
    · exact hv
  · exact acctScalarFrame_modify hv _ fun a => ⟨rfl, rfl, rfl, rfl⟩
  · unfold Wallet.enable_transfer_destinationsS
    split
    · exact acctScalarFrame_modify hv _ fun a => ⟨rfl, rfl, rfl, rfl⟩
    · exact hv

lemma update_balance_accountS_none (w : Wallet) (g : Nat)
    (u : BalanceAccountUpdate) (h : w.get_balance_account_index g = none) :
    w.update_balance_accountS g u = (w, .error .balanceAccountNotFound) := by
  unfold Wallet.update_balance_accountS
  rw [h]

lemma update_balance_accountS_some (w : Wallet) (g : Nat)
    (u : BalanceAccountUpdate) (idx : Nat)
    (h : w.get_balance_account_index g = some idx) :
    w.update_balance_accountS g u =
      step (w, if 0 < u.approval_timeout_for_transfer then
          Wallet.validate_approval_timeout u.approval_timeout_for_transfer
        else .ok ()) fun w =>
      step (w.disable_transfer_approversS idx u.remove_transfer_approvers)
        fun w =>
      step (w.enable_transfer_approversS idx u.add_transfer_approvers)
        fun w =>
      step (w.disable_transfer_destinationsS idx
        u.remove_allowed_destinations) fun w =>
      step (w.enable_transfer_destinationsS idx u.add_allowed_destinations)
        fun w => finishBalanceAccountUpdate w idx u := by
  unfold Wallet.update_balance_accountS
  rw [h]

lemma finishBalanceAccountUpdate_fst (v : Wallet) (idx : Nat)
    (u : BalanceAccountUpdate) :
    (finishBalanceAccountUpdate v idx u).1 = modifyAccount v idx fun a =>
      { a with
        name_hash := u.name_hash,
        approvals_required_for_transfer := u.approvals_required_for_transfer,
        approval_timeout_for_transfer :=
          if 0 < u.approval_timeout_for_transfer then
            u.approval_timeout_for_transfer
          else a.approval_timeout_for_transfer } :=
  rfl

/-- Counterexample for C6: on wAcct (stored name hash 1) a successful
update_balance_account carrying the zero name hash and the zero timeout
sentinel overwrites the stored name hash with 0 even though no name
update was requested — the name update is not sentinel-governed. -/
theorem name_update_not_optional_counterexample :
    (wAcct.update_balance_accountS 5 buNoop).2 = .ok () ∧
    buNoop.name_hash = 0 ∧ acctBase.name_hash = 1 ∧
    ((wAcct.update_balance_accountS 5
        buNoop).1.balance_accounts.getD 0 default).name_hash = 0 := by
  decide

/-- C6 amended: in a successful update_balance_account the timeout
update is sentinel-governed (a zero requested timeout leaves the stored
timeout unchanged, a non-zero one must pass the range validation and is
then applied), while the name hash is unconditionally overwritten with
the requested value. -/
theorem update_balance_account_sentinel (w : Wallet) (g : Nat)
    (u : BalanceAccountUpdate)
    (h : (w.update_balance_accountS g u).2 = .ok ()) :
    ∃ i, w.get_balance_account_index g = some i ∧
      ((w.update_balance_accountS g
          u).1.balance_accounts.getD i default).name_hash = u.name_hash ∧
      (u.approval_timeout_for_transfer = 0 →
        ((w.update_balance_accountS g u).1.balance_accounts.getD i
            default).approval_timeout_for_transfer =
          (w.balance_accounts.getD i
            default).approval_timeout_for_transfer) ∧
      (0 < u.approval_timeout_for_transfer →
        Wallet.validate_approval_timeout u.approval_timeout_for_transfer =
          .ok () ∧
        ((w.update_balance_accountS g u).1.balance_accounts.getD i
            default).approval_timeout_for_transfer =
          u.approval_timeout_for_transfer) := by
  cases hidx : w.get_balance_account_index g with
  | none =>
    rw [update_balance_accountS_none w g u hidx] at h
    exact absurd h fun hh => Except.noConfusion hh
  | some idx =>
    have hlen : idx < w.balance_accounts.length :=
      findGuidIdx_lt_length hidx
    refine ⟨idx, rfl, ?_⟩
    rw [update_balance_accountS_some w g u idx hidx] at h ⊢
    obtain ⟨hval, h⟩ := step_ok_inv h
    rw [step_ok hval]
    try dsimp only at h
    try dsimp only
    have hvv : (if 0 < u.approval_timeout_for_transfer then
        Wallet.validate_approval_timeout u.approval_timeout_for_transfer
      else Except.ok ()) = Except.ok () := hval
    have h0 : AcctScalarFrame w.balance_accounts.length idx
        (w.balance_accounts.getD idx default).guid_hash
        (w.balance_accounts.getD idx default).name_hash
        (w.balance_accounts.getD idx default).approvals_required_for_transfer
        (w.balance_accounts.getD idx default).approval_timeout_for_transfer
        w := ⟨rfl, rfl, rfl, rfl, rfl⟩
    obtain ⟨r1, h⟩ := step_ok_inv h
    rw [step_ok r1]
    try dsimp only at h
    try dsimp only
    have f1 := (transfer_flag_ops_scalar_frame h0
      u.remove_transfer_approvers u.remove_allowed_destinations).1
    obtain ⟨r2, h⟩ := step_ok_inv h
    rw [step_ok r2]
    try dsimp only at h
    try dsimp only
    have f2 := (transfer_flag_ops_scalar_frame f1
      u.add_transfer_approvers u.add_allowed_destinations).2.1
    obtain ⟨r3, h⟩ := step_ok_inv h
    rw [step_ok r3]
    try dsimp only at h
    try dsimp only
    have f3 := (transfer_flag_ops_scalar_frame f2
      u.remove_transfer_approvers u.remove_allowed_destinations).2.2.1
    obtain ⟨r4, h⟩ := step_ok_inv h
    rw [step_ok r4]
    try dsimp only at h
    try dsimp only
    have f4 := (transfer_flag_ops_scalar_frame f3
      u.add_transfer_approvers u.add_allowed_destinations).2.2.2
    rw [finishBalanceAccountUpdate_fst]
    have hlen4 : idx < ((((w.disable_transfer_approversS idx
        u.remove_transfer_approvers).1.enable_transfer_approversS
        idx u.add_transfer_approvers).1.disable_transfer_destinationsS
        idx u.remove_allowed_destinations).1.enable_transfer_destinationsS
        idx u.add_allowed_destinations).1.balance_accounts.length := by
      rw [f4.1]; exact hlen
    rw [modifyAccount_getD _ _ _ hlen4]
    refine ⟨rfl, fun hz => ?_, fun hp => ?_⟩
    · simp only [hz]
      simpa using f4.2.2.2.2
    · rw [if_pos hp] at hvv ⊢
      exact ⟨hvv, rfl⟩

/-- Balance account update applying a new name hash and the timeout
7200 seconds. -/
def buRename : BalanceAccountUpdate :=
  { name_hash := 7, approvals_required_for_transfer := 1,
    approval_timeout_for_transfer := 7200, add_transfer_approvers := [],
    remove_transfer_approvers := [], add_allowed_destinations := [],
    remove_allowed_destinations := [] }

/-- Witness for the amended C6: a concrete successful balance account
update on wAcct. -/
theorem update_balance_account_sentinel_witness :
    ∃ i, wAcct.get_balance_account_index 5 = some i ∧
      ((wAcct.update_balance_accountS 5
          buRename).1.balance_accounts.getD i default).name_hash =
        buRename.name_hash ∧
      (buRename.approval_timeout_for_transfer = 0 →
        ((wAcct.update_balance_accountS 5 buRename).1.balance_accounts.getD i
            default).approval_timeout_for_transfer =
          (wAcct.balance_accounts.getD i
            default).approval_timeout_for_transfer) ∧
      (0 < buRename.approval_timeout_for_transfer →
        Wallet.validate_approval_timeout
            buRename.approval_timeout_for_transfer = .ok () ∧
        ((wAcct.update_balance_accountS 5 buRename).1.balance_accounts.getD i
            default).approval_timeout_for_transfer =
          buRename.approval_timeout_for_transfer) :=
  update_balance_account_sentinel wAcct 5 buRename (by decide)

/-- A signer slot id is in use when it is enabled as a config approver
or as a transfer approver of some balance account. -/
def signerInUse (w : Wallet) (id : Nat) : Prop :=
  is_enabled w.config_approvers id = true ∨
  ∃ a ∈ w.balance_accounts, is_enabled a.transfer_approvers id = true

lemma any_enabled_iff (flags : List Bool) (ids : List Nat) :
    any_enabled flags ids = true ↔ ∃ i ∈ ids, is_enabled flags i = true := by
  simp [any_enabled, is_enabled, List.any_eq_true]

lemma disableLoopS_not_mem [DecidableEq α] (store : List (Option α))
    (flags : List Bool) (l : List (Nat × α)) (i : Nat)
    (h : i ∉ slotIds l) :
    (disableLoopS store flags l).1.getD i false = flags.getD i false := by
  induction l generalizing flags with
  | nil => rfl
  | cons p rest ih =>
    rcases p with ⟨id, v⟩
    have hsp : i ≠ id ∧ i ∉ slotIds rest := by
      constructor
      · intro he
        exact h (by simp [slotIds, he])
      · intro hm
        apply h
        simp only [slotIds, List.map_cons, List.mem_cons]
        exact Or.inr hm
    rw [disableLoopS]
    split
    · rw [ih (disable flags id) hsp.2]
      simp [disable, List.getD, List.getElem?_set_ne (fun he => hsp.1 he.symm)]
    · rfl

lemma remove_signersS_inuse (w : Wallet) (batch : List (Nat × Signer))
    (hyp : ∃ q ∈ batch, signerInUse w q.1) :
    w.remove_signersS batch = (w, .error .invalidArgument) := by
  rcases hyp with ⟨q, hq_mem, hq⟩
  unfold Wallet.remove_signersS
  cases hcr : can_be_removed w.signers batch with
  | false => simp [hcr]
  | true =>
    cases hq with
    | inl hc =>
      have h2 : any_enabled w.config_approvers (slotIds batch) = true :=
        (any_enabled_iff _ _).mpr
          ⟨q.1, List.mem_map_of_mem Prod.fst hq_mem, hc⟩
      simp [hcr, h2]
    | inr ht =>
      obtain ⟨a, ha_mem, ha⟩ := ht
      have h3 : (w.balance_accounts.any fun a =>
          any_enabled a.transfer_approvers (slotIds batch)) = true := by
        rw [List.any_eq_true]
        exact ⟨a, ha_mem, (any_enabled_iff _ _).mpr
          ⟨q.1, List.mem_map_of_mem Prod.fst hq_mem, ha⟩⟩
      by_cases h2 : any_enabled w.config_approvers (slotIds batch) = true
      · simp [hcr, h2]
      · simp [hcr, h2, h3]

/-- wBase with both stored signers enabled as config approvers. -/
def wTwo : Wallet :=
  { wBase with
    config_approvers := ((List.replicate 24 false).set 0 true).set 1 true }

/-- Update that disables signer 0 as a config approver and removes it as
a signer in the same call. -/
def wuDisableAndRemove : WalletUpdate :=
  { approvals_required_for_config := 1, approval_timeout_for_config := 0,
    add_signers := [], remove_signers := [(0, ⟨1⟩)],
    add_config_approvers := [], remove_config_approvers := [(0, ⟨1⟩)],
    add_address_book_entries := [], remove_address_book_entries := [] }

/-- Counterexample for C3: signer slot 0 is enabled as a config approver
of wTwo, yet Wallet::update succeeds in removing it, because the same
update also disables it and the disable step runs before signer
removal. -/
theorem remove_enabled_signer_via_update_counterexample :
    is_enabled wTwo.config_approvers 0 = true ∧
    (wTwo.updateS wuDisableAndRemove).2 = .ok () := by decide

/-- C3 amended: a remove-signers batch targeting a slot id enabled as a
config approver or as a transfer approver of any balance account fails
with an error and leaves the wallet (in particular the signer store)
unchanged; the same holds for remove_signer, and for update whenever the
targeted signer is enabled as a transfer approver anywhere or is enabled
as a config approver and not simultaneously disabled by the same
update. -/
theorem remove_signer_in_use_guard (w : Wallet)
    (batch : List (Nat × Signer)) (p : Nat × Signer) (u : WalletUpdate) :
    ((∃ q ∈ batch, signerInUse w q.1) →
      w.remove_signersS batch = (w, .error .invalidArgument)) ∧
    (signerInUse w p.1 →
      w.remove_signerS p = (w, .error .invalidArgument)) ∧
    ((∃ q ∈ u.remove_signers,
        (∃ a ∈ w.balance_accounts,
          is_enabled a.transfer_approvers q.1 = true) ∨
        (is_enabled w.config_approvers q.1 = true ∧
          q.1 ∉ slotIds u.remove_config_approvers)) →
      ∃ e, (w.updateS u).2 = .error e ∧
        (w.updateS u).1.signers = w.signers) := by
  refine ⟨remove_signersS_inuse w batch, ?_, ?_⟩
  · intro hp
    exact remove_signersS_inuse w [p] ⟨p, by simp, hp⟩
  · rintro ⟨q, hq_mem, hq⟩
    unfold Wallet.updateS
    cases hd : ({ w with
        approvals_required_for_config := u.approvals_required_for_config,
        approval_timeout_for_config :=
          if 0 < u.approval_timeout_for_config then
            u.approval_timeout_for_config
          else
            w.approval_timeout_for_config }.disable_config_approversS
        u.remove_config_approvers).2 with
    | error e =>
      refine ⟨e, ?_, ?_⟩
      · rw [step_error hd]
        exact hd
      · rw [step_error hd]
        rfl
    | ok a =>
      cases a
      rw [step_ok hd]
      have hq3 : signerInUse ({ w with
          approvals_required_for_config := u.approvals_required_for_config,
          approval_timeout_for_config :=
            if 0 < u.approval_timeout_for_config then
              u.approval_timeout_for_config
            else
              w.approval_timeout_for_config }.disable_config_approversS
          u.remove_config_approvers).1 q.1 := by
        cases hq with
        | inl htr => exact Or.inr htr
        | inr hcfg =>
          left
          show (disableLoopS _ _ _).1.getD q.1 false = true
          rw [disableLoopS_not_mem _ _ _ _ hcfg.2]
          exact hcfg.1
      have hrem := remove_signersS_inuse _ u.remove_signers ⟨q, hq_mem, hq3⟩
      refine ⟨.invalidArgument, ?_, ?_⟩
      · rw [hrem]
        rfl
      · rw [hrem]
        rfl

/-- Witness for the amended C3: on wAcct, removing signer slot 0 (the
enabled config approver and transfer approver) fails in all three entry
points. -/
theorem remove_signer_in_use_guard_witness :
    wAcct.remove_signersS [(0, ⟨1⟩)] =
      (wAcct, .error .invalidArgument) ∧
    wAcct.remove_signerS (0, ⟨1⟩) = (wAcct, .error .invalidArgument) ∧
    ∃ e, (wAcct.updateS { wuDisableAndRemove with
        remove_config_approvers := [] }).2 = .error e ∧
      (wAcct.updateS { wuDisableAndRemove with
        remove_config_approvers := [] }).1.signers = wAcct.signers :=
  ⟨(remove_signer_in_use_guard wAcct [(0, ⟨1⟩)] (0, ⟨1⟩)
      { wuDisableAndRemove with remove_config_approvers := [] }).1
      ⟨(0, ⟨1⟩), by simp, Or.inl (by decide)⟩,
   (remove_signer_in_use_guard wAcct [(0, ⟨1⟩)] (0, ⟨1⟩)
      { wuDisableAndRemove with remove_config_approvers := [] }).2.1
      (Or.inl (by decide)),
   (remove_signer_in_use_guard wAcct [(0, ⟨1⟩)] (0, ⟨1⟩)
      { wuDisableAndRemove with remove_config_approvers := [] }).2.2
      ⟨(0, ⟨1⟩), by decide, Or.inl ⟨acctBase, by decide, by decide⟩⟩⟩

/-- Counterexample for C1: wAcct satisfies the threshold invariant, and
add_balance_account with the guid of the already-present account
succeeds, yet afterwards the invariant is violated: the update was
applied to the existing account (the first guid match) while the newly
pushed account keeps a zero transfer threshold. -/
theorem threshold_invariant_duplicate_guid_counterexample :
    ThresholdInv wAcct ∧
    (wAcct.add_balance_accountS 5 buNoop).2 = .ok () ∧
    ¬ ThresholdInv (wAcct.add_balance_accountS 5 buNoop).1 := by
  decide

/-- Agreement on the balance account list and the config threshold,
preserved by every operation Wallet::update runs before its final
checks. -/
abbrev CfgFrame (B : List BalanceAccount) (A : Nat) (v : Wallet) : Prop :=
  v.balance_accounts = B ∧ v.approvals_required_for_config = A

lemma cfgFrame_ops {B : List BalanceAccount} {A : Nat} {v : Wallet}
    (hv : CfgFrame B A v) (ls : List (Nat × Signer))
    (le : List (Nat × AddressBookEntry)) :
    CfgFrame B A (v.disable_config_approversS ls).1 ∧
    CfgFrame B A (v.remove_signersS ls).1 ∧
    CfgFrame B A (v.add_signersS ls).1 ∧
    CfgFrame B A (v.enable_config_approversS ls).1 ∧
    CfgFrame B A (v.remove_address_book_entriesS le).1 ∧
    CfgFrame B A (v.add_address_book_entriesS le).1 := by
  refine ⟨hv, ?_, ?_, ?_, ?_, ?_⟩
  · unfold Wallet.remove_signersS
    repeat' split
    all_goals exact hv
  · unfold Wallet.add_signersS
    split
    all_goals exact hv
  · unfold Wallet.enable_config_approversS
    split
    all_goals exact hv
  · unfold Wallet.remove_address_book_entriesS
    repeat' split
    all_goals exact hv
  · unfold Wallet.add_address_book_entriesS
    split
    all_goals exact hv

lemma updateConfigChecks_ok {w : Wallet} {req : Nat}
    (h : updateConfigChecks w req = .ok ()) :
    req ≤ count_enabled w.config_approvers ∧
    w.approvals_required_for_config ≠ 0 := by
  unfold updateConfigChecks at h
  by_cases h1 : count_enabled w.config_approvers < req
  · rw [if_pos h1] at h
    exact absurd h fun hh => Except.noConfusion hh
  · rw [if_neg h1] at h
    cases hv : Wallet.validate_approval_timeout
        w.approval_timeout_for_config with
    | error e =>
      rw [hv] at h
      exact absurd h fun hh => Except.noConfusion hh
    | ok a =>
      cases a
      rw [hv] at h
      have h2 : (if w.approvals_required_for_config = 0 then
          (Except.error ProgErr.invalidArgument : Except ProgErr Unit)
        else if count_enabled w.config_approvers = 0 then
          Except.error ProgErr.invalidArgument
        else Except.ok ()) = Except.ok () := h
      by_cases hz : w.approvals_required_for_config = 0
      · rw [if_pos hz] at h2
        exact absurd h2 fun hh => Except.noConfusion hh
      · exact ⟨Nat.le_of_not_lt h1, hz⟩

lemma configPolicyChecks_ok {w : Wallet} {req : Nat}
    (h : configPolicyChecks w req = .ok ()) :
    req ≤ count_enabled w.config_approvers ∧
    w.approvals_required_for_config ≠ 0 := by
  unfold configPolicyChecks at h
  by_cases h1 : w.approvals_required_for_config = 0
  · rw [if_pos h1] at h
    exact absurd h fun hh => Except.noConfusion hh
  · rw [if_neg h1] at h
    by_cases h2 : w.approval_timeout_for_config = 0
    · rw [if_pos h2] at h
      exact absurd h fun hh => Except.noConfusion hh
    · rw [if_neg h2] at h
      by_cases h3 : count_enabled w.config_approvers < req
      · rw [if_pos h3] at h
        exact absurd h fun hh => Except.noConfusion hh
      · exact ⟨Nat.le_of_not_lt h3, h1⟩

lemma finishBalanceAccountUpdate_ok {v : Wallet} {idx : Nat}
    {u : BalanceAccountUpdate}
    (h : (finishBalanceAccountUpdate v idx u).2 = .ok ()) :
    u.approvals_required_for_transfer ≤ count_enabled
      ((finishBalanceAccountUpdate v idx
        u).1.balance_accounts.getD idx default).transfer_approvers ∧
    ((finishBalanceAccountUpdate v idx u).1.balance_accounts.getD idx
      default).approvals_required_for_transfer ≠ 0 := by
  have h2 : (if count_enabled ((finishBalanceAccountUpdate v idx
        u).1.balance_accounts.getD idx default).transfer_approvers <
        u.approvals_required_for_transfer then
      (Except.error ProgErr.invalidArgument : Except ProgErr Unit)
    else if ((finishBalanceAccountUpdate v idx u).1.balance_accounts.getD
        idx default).approvals_required_for_transfer = 0 then
      Except.error ProgErr.invalidArgument
    else if count_enabled ((finishBalanceAccountUpdate v idx
        u).1.balance_accounts.getD idx default).transfer_approvers = 0 then
      Except.error ProgErr.invalidArgument
    else Except.ok ()) = Except.ok () := h
  by_cases h1 : count_enabled ((finishBalanceAccountUpdate v idx
      u).1.balance_accounts.getD idx default).transfer_approvers <
      u.approvals_required_for_transfer
  · rw [if_pos h1] at h2
    exact absurd h2 fun hh => Except.noConfusion hh
  · rw [if_neg h1] at h2
    by_cases hz : ((finishBalanceAccountUpdate v idx
        u).1.balance_accounts.getD idx
        default).approvals_required_for_transfer = 0
    · rw [if_pos hz] at h2
      exact absurd h2 fun hh => Except.noConfusion hh
    · exact ⟨Nat.le_of_not_lt h1, hz⟩

/-- Agreement on the config policy fields and on every balance account
other than the one at the given index. -/
abbrev OtherAcctFrame (w0 : Wallet) (idx : Nat) (v : Wallet) : Prop :=
  v.approvals_required_for_config = w0.approvals_required_for_config ∧
  v.config_approvers = w0.config_approvers ∧
  v.balance_accounts.length = w0.balance_accounts.length ∧
  ∀ j, j ≠ idx → v.balance_accounts[j]? = w0.balance_accounts[j]?

lemma otherAcctFrame_modify {w0 : Wallet} {idx : Nat} {v : Wallet}
    (hv : OtherAcctFrame w0 idx v) (f : BalanceAccount → BalanceAccount) :
    OtherAcctFrame w0 idx (modifyAccount v idx f) := by
  refine ⟨hv.1, hv.2.1, ?_, ?_⟩
  · rw [modifyAccount_len]
    exact hv.2.2.1
  · intro j hj
    show (v.balance_accounts.set idx _)[j]? = _
    rw [List.getElem?_set_ne fun he => hj he.symm]
    exact hv.2.2.2 j hj

lemma otherAcctFrame_ops {w0 : Wallet} {idx : Nat} {v : Wallet}
    (hv : OtherAcctFrame w0 idx v) (ls : List (Nat × Signer))
    (ld : List (Nat × AddressBookEntry)) :
    OtherAcctFrame w0 idx (v.disable_transfer_approversS idx ls).1 ∧
    OtherAcctFrame w0 idx (v.enable_transfer_approversS idx ls).1 ∧
    OtherAcctFrame w0 idx (v.disable_transfer_destinationsS idx ld).1 ∧
    OtherAcctFrame w0 idx (v.enable_transfer_destinationsS idx ld).1 := by
  refine ⟨?_, ?_, ?_, ?_⟩
  · exact otherAcctFrame_modify hv _
  · unfold Wallet.enable_transfer_approversS
    split
    · exact otherAcctFrame_modify hv _
    · exact hv
  · exact otherAcctFrame_modify hv _
  · unfold Wallet.enable_transfer_destinationsS
    split
    · exact otherAcctFrame_modify hv _
    · exact hv

lemma update_balance_account_inv_core (w : Wallet) (g : Nat)
    (bu : BalanceAccountUpdate) (idx : Nat)
    (hidx : w.get_balance_account_index g = some idx)
    (hcfg : 1 ≤ w.approvals_required_for_config ∧
      w.approvals_required_for_config ≤ count_enabled w.config_approvers)
    (hacc : ∀ j, j ≠ idx → ∀ a, w.balance_accounts[j]? = some a →
      1 ≤ a.approvals_required_for_transfer ∧
      a.approvals_required_for_transfer ≤
        count_enabled a.transfer_approvers)
    (hok : (w.update_balance_accountS g bu).2 = .ok ()) :
    ThresholdInv (w.update_balance_accountS g bu).1 := by
  have hlen : idx < w.balance_accounts.length := findGuidIdx_lt_length hidx
  rw [update_balance_accountS_some w g bu idx hidx] at hok ⊢
  obtain ⟨hval, hok⟩ := step_ok_inv hok
  rw [step_ok hval]
  try dsimp only at hok
  try dsimp only
  have F0 : OtherAcctFrame w idx w := ⟨rfl, rfl, rfl, fun j _ => rfl⟩
  obtain ⟨r1, hok⟩ := step_ok_inv hok
  rw [step_ok r1]
  try dsimp only at hok
  try dsimp only
  have F1 := (otherAcctFrame_ops F0 bu.remove_transfer_approvers
    bu.remove_allowed_destinations).1
  obtain ⟨r2, hok⟩ := step_ok_inv hok
  rw [step_ok r2]
  try dsimp only at hok
  try dsimp only
  have F2 := (otherAcctFrame_ops F1 bu.add_transfer_approvers
    bu.add_allowed_destinations).2.1
  obtain ⟨r3, hok⟩ := step_ok_inv hok
  rw [step_ok r3]
  try dsimp only at hok
  try dsimp only
  have F3 := (otherAcctFrame_ops F2 bu.remove_transfer_approvers
    bu.remove_allowed_destinations).2.2.1
  obtain ⟨r4, hok⟩ := step_ok_inv hok
  rw [step_ok r4]
  try dsimp only at hok
  try dsimp only
  have F4 := (otherAcctFrame_ops F3 bu.add_transfer_approvers
    bu.add_allowed_destinations).2.2.2
  set W4 := ((((w.disable_transfer_approversS idx
    bu.remove_transfer_approvers).1.enable_transfer_approversS
    idx bu.add_transfer_approvers).1.disable_transfer_destinationsS
    idx bu.remove_allowed_destinations).1.enable_transfer_destinationsS
    idx bu.add_allowed_destinations).1 with hW4
  have hchecks := finishBalanceAccountUpdate_ok hok
  have F5 : OtherAcctFrame w idx (finishBalanceAccountUpdate W4 idx bu).1 := by
    rw [finishBalanceAccountUpdate_fst]
    exact otherAcctFrame_modify F4 _
  constructor
  · constructor
    · rw [F5.1]
      exact hcfg.1
    · rw [F5.1, F5.2.1]
      exact hcfg.2
  · intro a ha
    obtain ⟨j, hj, hja⟩ := List.getElem_of_mem ha
    by_cases hji : j = idx
    · subst hji
      have hgd : (finishBalanceAccountUpdate W4 j
          bu).1.balance_accounts.getD j default = a := by
        rw [List.getD_eq_getElem?_getD, List.getElem?_eq_getElem hj, hja]
        rfl
      rw [hgd] at hchecks
      have har : a.approvals_required_for_transfer =
          bu.approvals_required_for_transfer := by
        have hlen4 : j < W4.balance_accounts.length := by
          rw [F4.2.2.1]
          exact hlen
        rw [← hgd, finishBalanceAccountUpdate_fst,
          modifyAccount_getD _ _ _ hlen4]
      refine ⟨?_, ?_⟩
      · omega
      · rw [har]
        exact hchecks.1
    · have hsome : (finishBalanceAccountUpdate W4 idx
          bu).1.balance_accounts[j]? = some a := by
        rw [List.getElem?_eq_getElem hj, hja]
      rw [F5.2.2.2 j hji] at hsome
      exact hacc j hji a hsome

lemma findGuidIdx_append_fresh (g : Nat) (l : List BalanceAccount)
    (h : ∀ a ∈ l, a.guid_hash ≠ g) :
    findGuidIdx g (l ++ [zeroBalanceAccount g]) = some l.length := by
  induction l with
  | nil => simp [findGuidIdx, zeroBalanceAccount]
  | cons a rest ih =>
    rw [List.cons_append, findGuidIdx, if_neg (h a (by simp)),
      ih fun b hb => h b (by simp [hb])]
    rfl

/-- C1 amended: the threshold invariant is preserved by every successful
mutation, provided it held beforehand; for add_balance_account the added
guid must additionally be fresh — with a duplicate guid the update is
applied to the existing (first matching) account and the freshly pushed
account keeps a zero threshold, violating the invariant. -/
theorem threshold_invariant_preserved (w : Wallet) (u : WalletUpdate)
    (cu : WalletConfigPolicyUpdate) (g : Nat) (bu : BalanceAccountUpdate)
    (hInv : ThresholdInv w) :
    ((w.updateS u).2 = .ok () → ThresholdInv (w.updateS u).1) ∧
    ((w.update_config_policyS cu).2 = .ok () →
      ThresholdInv (w.update_config_policyS cu).1) ∧
    ((w.update_balance_accountS g bu).2 = .ok () →
      ThresholdInv (w.update_balance_accountS g bu).1) ∧
    ((∀ a ∈ w.balance_accounts, a.guid_hash ≠ g) →
      (w.add_balance_accountS g bu).2 = .ok () →
      ThresholdInv (w.add_balance_accountS g bu).1) := by
  refine ⟨?_, ?_, ?_, ?_⟩
  · intro hok
    unfold Wallet.updateS at hok ⊢
    have C0 : CfgFrame w.balance_accounts u.approvals_required_for_config
        { w with
          approvals_required_for_config := u.approvals_required_for_config,
          approval_timeout_for_config :=
            if 0 < u.approval_timeout_for_config then
              u.approval_timeout_for_config
            else w.approval_timeout_for_config } := ⟨rfl, rfl⟩
    obtain ⟨r1, hok⟩ := step_ok_inv hok
    rw [step_ok r1]
    try dsimp only at hok
    try dsimp only
    have C1 := (cfgFrame_ops C0 u.remove_config_approvers
      u.remove_address_book_entries).1
    obtain ⟨r2, hok⟩ := step_ok_inv hok
    rw [step_ok r2]
    try dsimp only at hok
    try dsimp only
    have C2 := (cfgFrame_ops C1 u.remove_signers
      u.remove_address_book_entries).2.1
    obtain ⟨r3, hok⟩ := step_ok_inv hok
    rw [step_ok r3]
    try dsimp only at hok
    try dsimp only
    have C3 := (cfgFrame_ops C2 u.add_signers
      u.add_address_book_entries).2.2.1
    obtain ⟨r4, hok⟩ := step_ok_inv hok
    rw [step_ok r4]
    try dsimp only at hok
    try dsimp only
    have C4 := (cfgFrame_ops C3 u.add_config_approvers
      u.add_address_book_entries).2.2.2.1
    obtain ⟨r5, hok⟩ := step_ok_inv hok
    rw [step_ok r5]
    try dsimp only at hok
    try dsimp only
    have C5 := (cfgFrame_ops C4 u.add_config_approvers
      u.remove_address_book_entries).2.2.2.2.1
    obtain ⟨r6, hok⟩ := step_ok_inv hok
    rw [step_ok r6]
    try dsimp only at hok
    try dsimp only
    have C6 := (cfgFrame_ops C5 u.add_config_approvers
      u.add_address_book_entries).2.2.2.2.2
    have hch : updateConfigChecks _ u.approvals_required_for_config =
        .ok () := hok
    have hfacts := updateConfigChecks_ok hch
    constructor
    · constructor
      · rw [C6.2]
        omega
      · rw [C6.2]
        exact hfacts.1
    · intro a ha
      rw [C6.1] at ha
      exact hInv.2 a ha
  · intro hok
    unfold Wallet.update_config_policyS at hok ⊢
    have C0 : CfgFrame w.balance_accounts cu.approvals_required_for_config
        { w with
          approvals_required_for_config := cu.approvals_required_for_config,
          approval_timeout_for_config :=
            if 0 < cu.approval_timeout_for_config then
              cu.approval_timeout_for_config
            else w.approval_timeout_for_config } := ⟨rfl, rfl⟩
    obtain ⟨r1, hok⟩ := step_ok_inv hok
    rw [step_ok r1]
    try dsimp only at hok
    try dsimp only
    have C1 := (cfgFrame_ops C0 cu.remove_config_approvers []).1
    obtain ⟨r2, hok⟩ := step_ok_inv hok
    rw [step_ok r2]
    try dsimp only at hok
    try dsimp only
    have C2 := (cfgFrame_ops C1 cu.add_config_approvers []).2.2.2.1
    have hch : configPolicyChecks _ cu.approvals_required_for_config =
        .ok () := hok
    have hfacts := configPolicyChecks_ok hch
    constructor
    · constructor
      · rw [C2.2]
        omega
      · rw [C2.2]
        exact hfacts.1
    · intro a ha
      rw [C2.1] at ha
      exact hInv.2 a ha
  · intro hok
    cases hidx : w.get_balance_account_index g with
    | none =>
      rw [update_balance_accountS_none w g bu hidx] at hok
      exact absurd hok fun hh => Except.noConfusion hh
    | some idx =>
      refine update_balance_account_inv_core w g bu idx hidx
        ⟨hInv.1.1, hInv.1.2⟩ ?_ hok
      intro j hj a haj
      exact hInv.2 a (List.getElem?_mem haj)
  · intro hfresh hok
    unfold Wallet.add_balance_accountS at hok ⊢
    have hidx : Wallet.get_balance_account_index
        { w with balance_accounts :=
            w.balance_accounts ++ [zeroBalanceAccount g] } g =
        some w.balance_accounts.length :=
      findGuidIdx_append_fresh g w.balance_accounts hfresh
    refine update_balance_account_inv_core _ g bu
      w.balance_accounts.length hidx ⟨hInv.1.1, hInv.1.2⟩ ?_ hok
    intro j hj a haj
    by_cases hlt : j < w.balance_accounts.length
    · rw [List.getElem?_append_left hlt] at haj
      exact hInv.2 a (List.getElem?_mem haj)
    · exfalso
      have hge : w.balance_accounts.length + 1 ≤ j := by
        omega
      have : (w.balance_accounts ++ [zeroBalanceAccount g])[j]? = none := by
        apply List.getElem?_eq_none
        simp
        omega
      rw [this] at haj
      exact Option.noConfusion haj

/-- Wallet update on wAcct that keeps threshold 1 and changes nothing
else: it succeeds. -/
def wuKeepOne : WalletUpdate :=
  { approvals_required_for_config := 1, approval_timeout_for_config := 0,
    add_signers := [], remove_signers := [], add_config_approvers := [],
    remove_config_approvers := [], add_address_book_entries := [],
    remove_address_book_entries := [] }

/-- Balance account creation argument enabling signer slot 0 as the
transfer approver with threshold 1 and timeout 3600: on a fresh guid it
succeeds. -/
def buAddFresh : BalanceAccountUpdate :=
  { name_hash := 7, approvals_required_for_transfer := 1,
    approval_timeout_for_transfer := 3600,
    add_transfer_approvers := [(0, ⟨1⟩)], remove_transfer_approvers := [],
    add_allowed_destinations := [], remove_allowed_destinations := [] }

/-- Witness for the amended C1: four concrete mutations on wAcct that
each return Ok (checked by decide when discharging the success
hypotheses), including an add_balance_account with the fresh guid 6,
all preserve the threshold invariant. -/
theorem threshold_invariant_preserved_witness :
    ThresholdInv (wAcct.updateS wuKeepOne).1 ∧
    ThresholdInv (wAcct.update_config_policyS cpuNoop).1 ∧
    ThresholdInv (wAcct.update_balance_accountS 5 buNoop).1 ∧
    ThresholdInv (wAcct.add_balance_accountS 6 buAddFresh).1 :=
  ⟨(threshold_invariant_preserved wAcct wuKeepOne cpuNoop 5 buNoop
      (by decide)).1 (by decide),
   (threshold_invariant_preserved wAcct wuKeepOne cpuNoop 5 buNoop
      (by decide)).2.1 (by decide),
   (threshold_invariant_preserved wAcct wuKeepOne cpuNoop 5 buNoop
      (by decide)).2.2.1 (by decide),
   (threshold_invariant_preserved wAcct wuKeepOne cpuNoop 6 buAddFresh
      (by decide)).2.2.2 (by decide) (by decide)⟩

lemma length_natToLE (k n : Nat) : (natToLE k n).length = k := by
  induction k generalizing n with
  | zero => rfl
  | succ m ih => simp [natToLE, ih]

lemma leToNat_natToLE (k n : Nat) (h : n < 256 ^ k) :
    leToNat (natToLE k n) = n := by
  induction k generalizing n with
  | zero =>
    simp [natToLE, leToNat]
    omega
  | succ m ih =>
    rw [natToLE, leToNat, ih (n / 256) ?bound]
    · exact Nat.mod_add_div n 256
    case bound =>
      rw [Nat.div_lt_iff_lt_mul (by norm_num)]
      calc n < 256 ^ (m + 1) := h
        _ = 256 ^ m * 256 := by ring

lemma take_append_len {α} (A rest : List α) (n : Nat)
    (h : A.length = n) : (A ++ rest).take n = A := by
  subst h
  exact List.take_left A rest

lemma drop_append_len {α} (A rest : List α) (n : Nat)
    (h : A.length = n) : (A ++ rest).drop n = rest := by
  subst h
  exact List.drop_left A rest

lemma byteBits_byteVal :
    ∀ b0 b1 b2 b3 b4 b5 b6 b7 : Bool,
      byteBits (byteVal b0 b1 b2 b3 b4 b5 b6 b7) =
        [b0, b1, b2, b3, b4, b5, b6, b7] := by
  decide

lemma bytesToBits_bitsToBytes :
    ∀ bits : List Bool, bits.length % 8 = 0 →
      bytesToBits (bitsToBytes bits) = bits
  | [], _ => rfl
  | b0 :: b1 :: b2 :: b3 :: b4 :: b5 :: b6 :: b7 :: rest, h => by
    rw [bitsToBytes, bytesToBits, byteBits_byteVal]
    have hr : rest.length % 8 = 0 := by
      simp only [List.length_cons] at h
      omega
    rw [bytesToBits_bitsToBytes rest hr]
    rfl
  | [b0], h => by simp at h
  | [b0, b1], h => by simp at h
  | [b0, b1, b2], h => by simp at h
  | [b0, b1, b2, b3], h => by simp at h
  | [b0, b1, b2, b3, b4], h => by simp at h
  | [b0, b1, b2, b3, b4, b5], h => by simp at h
  | [b0, b1, b2, b3, b4, b5, b6], h => by simp at h

lemma length_bitsToBytes :
    ∀ bits : List Bool, (bitsToBytes bits).length = bits.length / 8
  | [] => rfl
  | b0 :: b1 :: b2 :: b3 :: b4 :: b5 :: b6 :: b7 :: rest => by
    rw [bitsToBytes]
    simp only [List.length_cons, length_bitsToBytes rest]
    omega
  | [b0] => by simp [bitsToBytes]
  | [b0, b1] => by simp [bitsToBytes]
  | [b0, b1, b2] => by simp [bitsToBytes]
  | [b0, b1, b2, b3] => by simp [bitsToBytes]
  | [b0, b1, b2, b3, b4] => by simp [bitsToBytes]
  | [b0, b1, b2, b3, b4, b5] => by simp [bitsToBytes]
  | [b0, b1, b2, b3, b4, b5, b6] => by simp [bitsToBytes]

lemma length_packSignerSlot (o : Option Signer) :
    (packSignerSlot o).length = 33 := by
  cases o <;> simp [packSignerSlot, packSigner, length_natToLE]

lemma length_packSignerSlots (l : List (Option Signer)) :
    (packSignerSlots l).length = 33 * l.length := by
  induction l with
  | nil => rfl
  | cons o rest ih =>
    show (packSignerSlot o ++ packSignerSlots rest).length = _
    simp [length_packSignerSlot, ih]
    ring

lemma unpack_packSignerSlots (l : List (Option Signer))
    (h : ∀ o ∈ l, (o.getD ⟨0⟩).key < 256 ^ 32) :
    unpackSignerSlots l.length (packSignerSlots l) = .ok l := by
  induction l with
  | nil => rfl
  | cons o rest ih =>
    have hrest : ∀ p ∈ rest, (p.getD ⟨0⟩).key < 256 ^ 32 :=
      fun p hp => h p (List.mem_cons_of_mem _ hp)
    show unpackSignerSlots (rest.length + 1)
      (packSignerSlot o ++ packSignerSlots rest) = _
    cases o with
    | none =>
      rw [show packSignerSlot none = 0 :: List.replicate 32 0 from rfl,
        List.cons_append, unpackSignerSlots]
      simp only [List.headD_cons, List.drop_succ_cons, List.drop_zero]
      simp only [if_true]
      rw [drop_append_len (List.replicate 32 0) _ 32 (by simp), ih hrest]
      rfl
    | some s =>
      have hs : s.key < 256 ^ 32 := by
        have := h (some s) (by simp)
        simpa using this
      rw [show packSignerSlot (some s) = 1 :: packSigner s from rfl,
        List.cons_append, unpackSignerSlots]
      simp only [List.headD_cons, List.drop_succ_cons, List.drop_zero]
      simp only [if_true]
      rw [take_append_len (packSigner s) _ 32
          (by simp [packSigner, length_natToLE]),
        drop_append_len (packSigner s) _ 32
          (by simp [packSigner, length_natToLE]),
        ih hrest]
      show Except.ok (some ⟨leToNat (packSigner s)⟩ :: rest) = _
      rw [packSigner, leToNat_natToLE 32 _ hs]

lemma length_packEntrySlot (o : Option AddressBookEntry) :
    (packEntrySlot o).length = 65 := by
  cases o <;> simp [packEntrySlot, packEntry, length_natToLE]

lemma length_packEntrySlots (l : List (Option AddressBookEntry)) :
    (packEntrySlots l).length = 65 * l.length := by
  induction l with
  | nil => rfl
  | cons o rest ih =>
    show (packEntrySlot o ++ packEntrySlots rest).length = _
    simp [length_packEntrySlot, ih]
    ring

lemma unpack_packEntrySlots (l : List (Option AddressBookEntry))
    (h : ∀ o ∈ l, (o.getD ⟨0, 0⟩).address < 256 ^ 32 ∧
      (o.getD ⟨0, 0⟩).name_hash < 256 ^ 32) :
    unpackEntrySlots l.length (packEntrySlots l) = .ok l := by
  induction l with
  | nil => rfl
  | cons o rest ih =>
    have hrest : ∀ p ∈ rest, (p.getD ⟨0, 0⟩).address < 256 ^ 32 ∧
        (p.getD ⟨0, 0⟩).name_hash < 256 ^ 32 :=
      fun p hp => h p (List.mem_cons_of_mem _ hp)
    show unpackEntrySlots (rest.length + 1)
      (packEntrySlot o ++ packEntrySlots rest) = _
    cases o with
    | none =>
      have hsplit : List.replicate 64 (0 : Nat) =
          List.replicate 32 0 ++ List.replicate 32 0 := by
        rw [← List.replicate_add]
      rw [show packEntrySlot none = 0 :: List.replicate 64 0 from rfl,
        List.cons_append, unpackEntrySlots]
      simp only [List.headD_cons, List.drop_succ_cons, List.drop_zero]
      simp only [if_true]
      rw [hsplit, List.append_assoc,
        drop_append_len (List.replicate 32 0) _ 32 (by simp),
        drop_append_len (List.replicate 32 0) _ 32 (by simp),
        ih hrest]
      rfl
    | some e =>
      have he := h (some e) (by simp)
      simp only [Option.getD_some] at he
      rw [show packEntrySlot (some e) =
          1 :: (natToLE 32 e.address ++ natToLE 32 e.name_hash) from rfl,
        List.cons_append, unpackEntrySlots]
      simp only [List.headD_cons, List.drop_succ_cons, List.drop_zero]
      simp only [if_true]
      rw [List.append_assoc,
        take_append_len (natToLE 32 e.address) _ 32 (length_natToLE 32 _),
        drop_append_len (natToLE 32 e.address) _ 32 (length_natToLE 32 _),
        take_append_len (natToLE 32 e.name_hash) _ 32 (length_natToLE 32 _),
        drop_append_len (natToLE 32 e.name_hash) _ 32 (length_natToLE 32 _),
        ih hrest]
      show Except.ok (some ⟨leToNat (natToLE 32 e.address),
        leToNat (natToLE 32 e.name_hash)⟩ :: rest) = _
      rw [leToNat_natToLE 32 _ he.1, leToNat_natToLE 32 _ he.2]

lemma settings_roundtrip (x y : BooleanSetting) :
    BooleanSetting.from_u8
        ((x.to_u8 <<< 0 ||| y.to_u8 <<< 1) &&& 1 <<< 0) = x ∧
    BooleanSetting.from_u8
        ((x.to_u8 <<< 0 ||| y.to_u8 <<< 1) &&& 1 <<< 1) = y := by
  cases x <;> cases y <;> constructor <;> decide

lemma polByte_roundtrip (p : Bool) :
    ((if p = true then (1 : Nat) else 0) == 1) = p := by
  cases p <;> rfl

lemma unpackBalanceAccountF_pack (a : BalanceAccount) (h : a.WF) :
    unpackBalanceAccountF (BalanceAccount.pack a) = a := by
  obtain ⟨hg, hn, har, ht, hta, had⟩ := h
  unfold unpackBalanceAccountF BalanceAccount.pack
  dsimp only
  rw [take_append_len _ _ 32 (length_natToLE 32 _),
    drop_append_len _ _ 32 (length_natToLE 32 _),
    take_append_len _ _ 32 (length_natToLE 32 _),
    drop_append_len _ _ 32 (length_natToLE 32 _)]
  simp only [List.headD_cons, List.drop_succ_cons, List.drop_zero]
  rw [take_append_len _ _ 8 (length_natToLE 8 _),
    drop_append_len _ _ 8 (length_natToLE 8 _),
    take_append_len _ _ 3 (by rw [length_bitsToBytes, hta]),
    drop_append_len _ _ 3 (by rw [length_bitsToBytes, hta]),
    take_append_len _ _ 16 (by rw [length_bitsToBytes, had]),
    drop_append_len _ _ 16 (by rw [length_bitsToBytes, had])]
  simp only [List.headD_cons, List.drop_succ_cons, List.drop_zero]
  rw [leToNat_natToLE 32 _ hg, leToNat_natToLE 32 _ hn,
    leToNat_natToLE 8 _ ht,
    bytesToBits_bitsToBytes _ (by rw [hta]),
    bytesToBits_bitsToBytes _ (by rw [had]),
    (settings_roundtrip a.whitelist_enabled a.dapps_enabled).1,
    (settings_roundtrip a.whitelist_enabled a.dapps_enabled).2,
    polByte_roundtrip a.policy_update_locked]

lemma length_BalanceAccount_pack (a : BalanceAccount) (h : a.WF) :
    (BalanceAccount.pack a).length = 94 := by
  obtain ⟨hg, hn, har, ht, hta, had⟩ := h
  simp [BalanceAccount.pack, length_natToLE, length_bitsToBytes, hta, had]

lemma length_accounts_payload (l : List BalanceAccount)
    (h : ∀ a ∈ l, a.WF) :
    (l.foldr (fun a acc => BalanceAccount.pack a ++ acc) []).length =
      94 * l.length := by
  induction l with
  | nil => rfl
  | cons a rest ih =>
    show (BalanceAccount.pack a ++ _).length = _
    rw [List.length_append, length_BalanceAccount_pack a (h a (by simp)),
      ih fun b hb => h b (List.mem_cons_of_mem _ hb)]
    simp
    ring

lemma unpackAccounts_pack : ∀ (l : List BalanceAccount) (tail : List Nat),
    (∀ a ∈ l, a.WF) →
    unpackAccounts l.length
      (l.foldr (fun a acc => BalanceAccount.pack a ++ acc) [] ++ tail) = l
  | [], _, _ => rfl
  | a :: rest, tail, h => by
    have ha : a.WF := h a (by simp)
    have hrest : ∀ b ∈ rest, b.WF :=
      fun b hb => h b (List.mem_cons_of_mem _ hb)
    show unpackAccounts (rest.length + 1)
      ((BalanceAccount.pack a ++ _) ++ tail) = _
    rw [unpackAccounts, List.append_assoc,
      take_append_len (BalanceAccount.pack a) _ 94
        (length_BalanceAccount_pack a ha),
      drop_append_len (BalanceAccount.pack a) _ 94
        (length_BalanceAccount_pack a ha),
      unpackBalanceAccountF_pack a ha,
      unpackAccounts_pack rest tail hrest]

lemma boolByte_bit (c : Bool) :
    boolByte (if c then 1 else 0) = .ok c := by
  cases c <;> rfl

lemma ok_bind {α β : Type} (a : α) (f : α → Except ProgErr β) :
    (Except.ok a : Except ProgErr α) >>= f = f a := rfl

lemma wallet_unpack_pack (w : Wallet) (h : w.WF) :
    Wallet.unpack_from_slice (Wallet.pack w) = .ok w := by
  obtain ⟨h1, h2, h3, h4, h5, h6, h7, h8, h9, h10⟩ := h
  have hreglen : (w.balance_accounts.foldr
      (fun a acc => BalanceAccount.pack a ++ acc) [] ++
      List.replicate ((MAX_BALANCE_ACCOUNTS - w.balance_accounts.length) *
        BalanceAccount.LEN) 0).length = 940 := by
    rw [List.length_append, length_accounts_payload _ h10,
      List.length_replicate]
    simp only [MAX_BALANCE_ACCOUNTS, BalanceAccount.LEN]
    omega
  unfold Wallet.unpack_from_slice Wallet.pack
  simp only [List.headD_cons, List.drop_succ_cons, List.drop_zero]
  rw [boolByte_bit w.is_initialized, ok_bind]
  try dsimp only
  rw [take_append_len (packSignerSlots w.signers) _ 792
      (by rw [length_packSignerSlots, h1]),
    drop_append_len (packSignerSlots w.signers) _ 792
      (by rw [length_packSignerSlots, h1]),
    show (24 : Nat) = w.signers.length from h1.symm,
    unpack_packSignerSlots w.signers h2, ok_bind]
  try dsimp only
  rw [take_append_len (packSigner w.assistant) _ 32
      (by simp [packSigner, length_natToLE]),
    drop_append_len (packSigner w.assistant) _ 32
      (by simp [packSigner, length_natToLE]),
    take_append_len (packEntrySlots w.address_book) _ 8320
      (by rw [length_packEntrySlots, h4]),
    drop_append_len (packEntrySlots w.address_book) _ 8320
      (by rw [length_packEntrySlots, h4]),
    show (128 : Nat) = w.address_book.length from h4.symm,
    unpack_packEntrySlots w.address_book h5, ok_bind]
  try dsimp only
  simp only [List.headD_cons, List.drop_succ_cons, List.drop_zero]
  rw [take_append_len (natToLE 8 w.approval_timeout_for_config) _ 8
      (length_natToLE 8 _),
    drop_append_len (natToLE 8 w.approval_timeout_for_config) _ 8
      (length_natToLE 8 _),
    take_append_len (bitsToBytes w.config_approvers) _ 3
      (by rw [length_bitsToBytes, h8]),
    drop_append_len (bitsToBytes w.config_approvers) _ 3
      (by rw [length_bitsToBytes, h8])]
  simp only [List.headD_cons, List.drop_succ_cons, List.drop_zero]
  rw [take_append_len _ _ 940 hreglen, drop_append_len _ _ 940 hreglen,
    Nat.min_eq_left h9, unpackAccounts_pack w.balance_accounts _ h10]
  simp only [List.headD_cons]
  rw [boolByte_bit w.config_policy_update_locked, ok_bind]
  rw [packSigner, leToNat_natToLE 32 _ h3, leToNat_natToLE 8 _ h7,
    bytesToBits_bitsToBytes _ (by rw [h8])]
  rfl

/-- A 94-byte BalanceAccount buffer whose policy-lock byte is 2. -/
def baBadBytes : List Nat := List.replicate 93 0 ++ [2]

/-- Counterexample for C5: a well-sized BalanceAccount buffer with a
policy-lock byte of 2 decodes successfully (the byte is read as false),
but re-encoding the decoded record writes the byte back as 0, so
encode(decode(bytes)) differs from the original bytes. -/
theorem codec_encode_decode_counterexample :
    baBadBytes.length = BalanceAccount.LEN ∧
    BalanceAccount.unpack_from_slice baBadBytes =
      .ok (unpackBalanceAccountF baBadBytes) ∧
    BalanceAccount.pack (unpackBalanceAccountF baBadBytes) ≠ baBadBytes := by
  decide

/-- C5 amended: decode(encode(record)) = record holds for every
well-formed BalanceAccount and Wallet record (including maximum
occupancy), and encode(decode(bytes)) = bytes holds for every buffer in
the image of encode; it fails for buffers with non-canonical content in
ignored positions, which decode successfully but re-encode
differently. -/
theorem codec_round_trip (a : BalanceAccount) (w : Wallet)
    (b : List Nat) :
    (a.WF →
      BalanceAccount.unpack_from_slice (BalanceAccount.pack a) = .ok a) ∧
    (w.WF → Wallet.unpack_from_slice (Wallet.pack w) = .ok w) ∧
    ((∃ a0 : BalanceAccount, a0.WF ∧ b = BalanceAccount.pack a0) →
      (BalanceAccount.unpack_from_slice b).map BalanceAccount.pack =
        .ok b) ∧
    ((∃ w0 : Wallet, w0.WF ∧ b = Wallet.pack w0) →
      (Wallet.unpack_from_slice b).map Wallet.pack = .ok b) := by
  refine ⟨fun ha => ?_, fun hw => wallet_unpack_pack w hw, ?_, ?_⟩
  · show Except.ok (unpackBalanceAccountF (BalanceAccount.pack a)) = _
    rw [unpackBalanceAccountF_pack a ha]
  · rintro ⟨a0, ha0, hb⟩
    subst hb
    have : BalanceAccount.unpack_from_slice (BalanceAccount.pack a0) =
        .ok a0 := by
      show Except.ok (unpackBalanceAccountF (BalanceAccount.pack a0)) = _
      rw [unpackBalanceAccountF_pack a0 ha0]
    rw [this]
    rfl
  · rintro ⟨w0, hw0, hb⟩
    subst hb
    rw [wallet_unpack_pack w0 hw0]
    rfl

/-- Wallet at maximum occupancy: 24 stored signers, 128 address book
entries, 10 balance accounts, all 24 config approvers enabled. -/
def wMax : Wallet :=
  { is_initialized := true
  , signers := (List.range 24).map fun i => some ⟨i + 1⟩
  , assistant := ⟨9⟩
  , address_book := (List.range 128).map fun i => some ⟨i + 1, i + 2⟩
  , approvals_required_for_config := 3
  , approval_timeout_for_config := 3600
  , config_approvers := List.replicate 24 true
  , balance_accounts :=
      (List.range 10).map fun i => { acctBase with guid_hash := i + 1 }
  , config_policy_update_locked := false }

set_option maxRecDepth 100000 in
/-- Witness for the amended C5: the decode-encode round trip at a
concrete account and at the maximum-occupancy wallet. -/
theorem codec_round_trip_witness :
    BalanceAccount.unpack_from_slice (BalanceAccount.pack acctBase) =
      .ok acctBase ∧
    Wallet.unpack_from_slice (Wallet.pack wMax) = .ok wMax ∧
    (BalanceAccount.unpack_from_slice
        (BalanceAccount.pack acctBase)).map BalanceAccount.pack =
      .ok (BalanceAccount.pack acctBase) ∧
    (Wallet.unpack_from_slice (Wallet.pack wMax)).map Wallet.pack =
      .ok (Wallet.pack wMax) :=
  ⟨(codec_round_trip acctBase wMax []).1 (by decide),
   (codec_round_trip acctBase wMax []).2.1 (by decide),
   (codec_round_trip acctBase wMax
      (BalanceAccount.pack acctBase)).2.2.1 ⟨acctBase, by decide, rfl⟩,
   (codec_round_trip acctBase wMax (Wallet.pack wMax)).2.2.2
      ⟨wMax, by decide, rfl⟩⟩

end StrikeWallet
